import Mathlib

/-! # Zora: desired state of a scan CronJob and aggregation of cluster issues

A shallow embedding of `pkg/plugins/cronjobs/cronjob.go` (the `Mutator` that brings a
stored CronJob to its desired state) and of `NewIssues` from `pkg/payloads/v1alpha1`
(known through `issues_test.go`).

Conventions of the embedding:

* Go structs are Lean structures with the Go field names; a Go pointer to a scalar or to a
  struct is an `Option`; a Go slice is a `List` (a nil slice and an empty slice are both `[]`).
* A Go `map[string]V` is an association list with first-match lookup (`goMapGet`) and
  replace-or-append assignment (`goMapSet`); a nil map is `none`.
* The in-place mutation of `r.Existing` is explicit state passing: `Mutate` returns the
  object as it is after the call together with the returned error.
* The receiver's pointers `Existing`, `Plugin`, `ClusterScan` and `KubeconfigSecret` are
  taken to be non-nil (a nil one makes the Go function panic on its first dereference).
-/

set_option autoImplicit false
set_option linter.dupNamespace false

/-! ## Go maps -/

/-- A Go `map[string]V`, as an association list. -/
abbrev GoMap (V : Type) := List (String × V)

/-- The read `m[k]` with the comma-ok idiom: `none` when the key is absent. -/
def goMapGet {V : Type} : GoMap V → String → Option V
  | [], _ => none
  | (k', v) :: rest, k => if k' = k then some v else goMapGet rest k

/-- The assignment `m[k] = v`: replaces the value of an existing key, adds a new key. -/
def goMapSet {V : Type} : GoMap V → String → V → GoMap V
  | [], k, v => [(k, v)]
  | (k', v') :: rest, k, v => if k' = k then (k, v) :: rest else (k', v') :: goMapSet rest k v

/-- The builtin `len(m)`. -/
def goMapLen {V : Type} (m : GoMap V) : Nat := m.length

/-- The values met by `for _, c := range m`. Go leaves the iteration order of a map
unspecified; for the maps of at most two entries built here an order is either the stored
one (`order = true`) or its reverse. -/
def goMapRange {V : Type} (m : GoMap V) (order : Bool) : List V :=
  if order then m.map Prod.snd else m.reverse.map Prod.snd

/-! ## Kubernetes API types (the fields of `k8s.io/api` used or preserved here) -/

namespace metav1

structure OwnerReference where
  APIVersion : String
  Kind : String
  Name : String
  UID : String
  Controller : Option Bool
  BlockOwnerDeletion : Option Bool
  deriving DecidableEq, Repr

structure ObjectMeta where
  Name : String := ""
  Namespace : String := ""
  UID : String := ""
  ResourceVersion : String := ""
  Labels : Option (GoMap String) := none
  Annotations : Option (GoMap String) := none
  OwnerReferences : List OwnerReference := []
  Finalizers : List String := []
  deriving DecidableEq, Repr

end metav1

namespace corev1

structure ObjectFieldSelector where
  APIVersion : String := ""
  FieldPath : String := ""
  deriving DecidableEq, Repr

structure KeySelector where
  Name : String := ""
  Key : String := ""
  Optional : Option Bool := none
  deriving DecidableEq, Repr

structure EnvVarSource where
  FieldRef : Option ObjectFieldSelector := none
  ConfigMapKeyRef : Option KeySelector := none
  SecretKeyRef : Option KeySelector := none
  deriving DecidableEq, Repr

structure EnvVar where
  Name : String := ""
  Value : String := ""
  ValueFrom : Option EnvVarSource := none
  deriving DecidableEq, Repr

structure EnvFromSource where
  Pfx : String := ""
  ConfigMapRef : Option String := none
  SecretRef : Option String := none
  deriving DecidableEq, Repr

structure ResourceRequirements where
  Limits : Option (GoMap String) := none
  Requests : Option (GoMap String) := none
  deriving DecidableEq, Repr

structure VolumeMount where
  Name : String := ""
  ReadOnly : Bool := false
  MountPath : String := ""
  SubPath : String := ""
  deriving DecidableEq, Repr

structure SecurityContext where
  Privileged : Option Bool := none
  RunAsUser : Option Int := none
  RunAsNonRoot : Option Bool := none
  ReadOnlyRootFilesystem : Option Bool := none
  AllowPrivilegeEscalation : Option Bool := none
  deriving DecidableEq, Repr

structure ContainerPort where
  Name : String := ""
  HostPort : Int := 0
  ContainerPort : Int := 0
  Protocol : String := ""
  deriving DecidableEq, Repr

structure Probe where
  Exec : List String := []
  InitialDelaySeconds : Int := 0
  PeriodSeconds : Int := 0
  deriving DecidableEq, Repr

structure Container where
  Name : String := ""
  Image : String := ""
  Command : List String := []
  Args : List String := []
  WorkingDir : String := ""
  Ports : List ContainerPort := []
  EnvFrom : List EnvFromSource := []
  Env : List EnvVar := []
  Resources : ResourceRequirements := {}
  VolumeMounts : List VolumeMount := []
  LivenessProbe : Option Probe := none
  ReadinessProbe : Option Probe := none
  StartupProbe : Option Probe := none
  TerminationMessagePath : String := ""
  ImagePullPolicy : String := ""
  SecurityContext : Option SecurityContext := none
  Stdin : Bool := false
  TTY : Bool := false
  deriving DecidableEq, Repr

structure KeyToPath where
  Key : String := ""
  Path : String := ""
  deriving DecidableEq, Repr

structure SecretVolumeSource where
  SecretName : String := ""
  Items : List KeyToPath := []
  DefaultMode : Option Int := none
  Optional : Option Bool := none
  deriving DecidableEq, Repr

structure EmptyDirVolumeSource where
  Medium : String := ""
  SizeLimit : Option String := none
  deriving DecidableEq, Repr

structure VolumeSource where
  HostPath : Option String := none
  EmptyDir : Option EmptyDirVolumeSource := none
  Secret : Option SecretVolumeSource := none
  ConfigMap : Option String := none
  deriving DecidableEq, Repr

structure Volume where
  Name : String := ""
  VolumeSource : VolumeSource := {}
  deriving DecidableEq, Repr

structure PodSecurityContext where
  RunAsUser : Option Int := none
  RunAsNonRoot : Option Bool := none
  FSGroup : Option Int := none
  deriving DecidableEq, Repr

structure PodSpec where
  Volumes : List Volume := []
  InitContainers : List Container := []
  Containers : List Container := []
  RestartPolicy : String := ""
  ServiceAccountName : String := ""
  NodeName : String := ""
  NodeSelector : Option (GoMap String) := none
  SecurityContext : Option PodSecurityContext := none
  deriving DecidableEq, Repr

structure PodTemplateSpec where
  ObjectMeta : metav1.ObjectMeta := {}
  Spec : PodSpec := {}
  deriving DecidableEq, Repr

structure Secret where
  ObjectMeta : metav1.ObjectMeta := {}
  deriving DecidableEq, Repr

def RestartPolicyNever : String := "Never"

def PullIfNotPresent : String := "IfNotPresent"

end corev1

namespace batchv1

structure JobSpec where
  Parallelism : Option Int := none
  Completions : Option Int := none
  ActiveDeadlineSeconds : Option Int := none
  BackoffLimit : Option Int := none
  Template : corev1.PodTemplateSpec := {}
  TTLSecondsAfterFinished : Option Int := none
  deriving DecidableEq, Repr

structure JobTemplateSpec where
  ObjectMeta : metav1.ObjectMeta := {}
  Spec : JobSpec := {}
  deriving DecidableEq, Repr

structure CronJobSpec where
  Schedule : String := ""
  StartingDeadlineSeconds : Option Int := none
  ConcurrencyPolicy : String := ""
  Suspend : Option Bool := none
  JobTemplate : JobTemplateSpec := {}
  SuccessfulJobsHistoryLimit : Option Int := none
  FailedJobsHistoryLimit : Option Int := none
  deriving DecidableEq, Repr

structure CronJob where
  ObjectMeta : metav1.ObjectMeta := {}
  Spec : CronJobSpec := {}
  deriving DecidableEq, Repr

def ForbidConcurrent : String := "Forbid"

end batchv1

/-! ## Zora API types (`apis/zora/v1alpha1`: the fields the mutator reads) -/

namespace v1alpha1

structure ClusterRef where
  Name : String := ""
  deriving DecidableEq, Repr

structure ClusterScanSpec where
  ClusterRef : ClusterRef := {}
  Suspend : Option Bool := none
  Schedule : String := ""
  SuccessfulScansHistoryLimit : Option Int := none
  FailedScansHistoryLimit : Option Int := none
  deriving DecidableEq, Repr

structure ClusterScan where
  ObjectMeta : metav1.ObjectMeta := {}
  Spec : ClusterScanSpec := {}
  deriving DecidableEq, Repr

structure PluginSpec where
  Image : String := ""
  Resources : corev1.ResourceRequirements := {}
  EnvFrom : List corev1.EnvFromSource := []
  Env : List corev1.EnvVar := []
  Command : List String := []
  Args : List String := []
  ImagePullPolicy : String := ""
  SecurityContext : Option corev1.SecurityContext := none
  deriving DecidableEq, Repr

structure Plugin where
  ObjectMeta : metav1.ObjectMeta := {}
  Spec : PluginSpec := {}
  deriving DecidableEq, Repr

structure PluginReference where
  Name : String := ""
  Namespace : String := ""
  Suspend : Option Bool := none
  Schedule : String := ""
  Env : List corev1.EnvVar := []
  deriving DecidableEq, Repr

/-- Modelled from the spec: `PluginSpec.GetImagePullPolicy`, declared in
`apis/zora/v1alpha1`: "pull policy from plugin config (falling back to a default if
unset)". The default it falls back to is the parameter `dflt`. -/
def PluginSpec.GetImagePullPolicy (s : PluginSpec) (dflt : String) : String :=
  if s.ImagePullPolicy = "" then dflt else s.ImagePullPolicy

end v1alpha1

/-! ## Package `cronjobs` -/

namespace cronjobs

def workerContainerName : String := "worker"
def kubeconfigVolumeName : String := "kubeconfig"
def kubeconfigMountPath : String := "/etc/zora"
def kubeconfigFile : String := "kubeconfig.yml"
def resultsVolumeName : String := "results"
def resultsDir : String := "/tmp/zora/results"
def LabelClusterScan : String := "zora.undistro.io/cluster-scan"
def LabelPlugin : String := "zora.undistro.io/plugin"

/-- Environment variables used in worker and plugin containers. -/
def commonEnv : List corev1.EnvVar :=
  [{ Name := "DONE_DIR", Value := resultsDir }]

/-- Volume mounts used in worker and plugin containers. -/
def commonVolumeMounts : List corev1.VolumeMount :=
  [{ Name := resultsVolumeName, MountPath := resultsDir }]

/-- Volume mounts used in the plugin container. -/
def pluginVolumeMounts : List corev1.VolumeMount :=
  commonVolumeMounts ++
    [{ Name := kubeconfigVolumeName, ReadOnly := true, MountPath := kubeconfigMountPath }]

/-- The type registrations of a `runtime.Scheme` that matter to the owner step: the
group-version-kinds under which the ClusterScan type is known. -/
structure Scheme where
  ClusterScanKinds : List (String × String) := []
  deriving DecidableEq, Repr

/-- What lies outside the package and is fixed for a deployment.

* `SecretField` is the constant `kubeconfig.SecretField` of `pkg/kubeconfig`.
* `DefaultPullPolicy` is the fallback of `PluginSpec.GetImagePullPolicy`.
* `SetControllerReference` is `ctrl.SetControllerReference(owner, controlled, scheme)` of
  controller-runtime. Following the spec ("set the scan object as controller-owner of the
  job object; this is the one step that can fail"), the call either returns an error or
  returns nil after storing a new list of owner references on the controlled object; it
  writes nothing else. -/
structure Externals where
  SecretField : String
  DefaultPullPolicy : String
  SetControllerReference :
    v1alpha1.ClusterScan → batchv1.CronJob → Scheme → Except String (List metav1.OwnerReference)

structure Mutator where
  Scheme : Scheme := {}
  Existing : batchv1.CronJob := {}
  Plugin : v1alpha1.Plugin := {}
  PluginRef : v1alpha1.PluginReference := {}
  ClusterScan : v1alpha1.ClusterScan := {}
  KubeconfigSecret : corev1.Secret := {}
  WorkerImage : String := ""
  ServiceAccountName : String := ""
  Suspend : Bool := false
  deriving DecidableEq, Repr

def New (name namespace_ : String) : batchv1.CronJob :=
  { ObjectMeta := { Name := name, Namespace := namespace_ } }

/-- The first non-nil pointer of the arguments, else a pointer to `false`. -/
def firstNonNilBoolPointer : List (Option Bool) → Option Bool
  | [] => some false
  | some b :: _ => some b
  | none :: rest => firstNonNilBoolPointer rest

/-- The environment variables of the worker container. -/
def Mutator.workerEnv (r : Mutator) : List corev1.EnvVar :=
  commonEnv ++
    [ { Name := "CLUSTER_NAME", Value := r.ClusterScan.Spec.ClusterRef.Name },
      { Name := "CLUSTER_ISSUES_NAMESPACE", Value := r.ClusterScan.ObjectMeta.Namespace },
      { Name := "PLUGIN_NAME", Value := r.Plugin.ObjectMeta.Name },
      { Name := "JOB_NAME",
        ValueFrom := some
          { FieldRef := some { FieldPath := "metadata.labels['job-name']", APIVersion := "v1" } } },
      { Name := "JOB_UID",
        ValueFrom := some
          { FieldRef := some { FieldPath := "metadata.labels['controller-uid']", APIVersion := "v1" } } },
      { Name := "POD_NAME",
        ValueFrom := some
          { FieldRef := some { FieldPath := "metadata.name", APIVersion := "v1" } } } ]

/-- The environment variables of the plugin container. `filepath.Join` of the two constant
path elements is their concatenation with a separator. -/
def Mutator.pluginEnv (r : Mutator) : List corev1.EnvVar :=
  let p := r.Plugin.Spec.Env ++ r.PluginRef.Env
  let p := p ++ commonEnv
  let p := p ++
    [ { Name := "KUBECONFIG", Value := kubeconfigMountPath ++ "/" ++ kubeconfigFile },
      { Name := "CRONJOB_NAMESPACE", Value := r.Existing.ObjectMeta.Namespace },
      { Name := "CRONJOB_NAME", Value := r.Existing.ObjectMeta.Name } ]
  p

/-- The Container of the worker. -/
def Mutator.workerContainer (r : Mutator) : corev1.Container :=
  { Name := workerContainerName
    Image := r.WorkerImage
    Env := r.workerEnv
    Resources := r.Plugin.Spec.Resources
    VolumeMounts := commonVolumeMounts
    ImagePullPolicy := corev1.PullIfNotPresent }

/-- The Container of the plugin. -/
def Mutator.pluginContainer (x : Externals) (r : Mutator) : corev1.Container :=
  { Name := r.Plugin.ObjectMeta.Name
    Image := r.Plugin.Spec.Image
    Command := r.Plugin.Spec.Command
    Args := r.Plugin.Spec.Args
    EnvFrom := r.Plugin.Spec.EnvFrom
    Env := r.pluginEnv
    Resources := r.Plugin.Spec.Resources
    ImagePullPolicy := r.Plugin.Spec.GetImagePullPolicy x.DefaultPullPolicy
    SecurityContext := r.Plugin.Spec.SecurityContext
    VolumeMounts := pluginVolumeMounts }

/-- The map literal `desiredContainers`: the worker entry is written first, the plugin
entry second (and replaces it when the plugin is itself named "worker"). -/
def Mutator.desiredContainers (x : Externals) (r : Mutator) : GoMap corev1.Container :=
  goMapSet (goMapSet [] workerContainerName r.workerContainer)
    r.Plugin.ObjectMeta.Name (r.pluginContainer x)

/-- The assignments made to `Containers[i]` when its name is a key of the desired map. -/
def overwriteContainer (c desired : corev1.Container) : corev1.Container :=
  { c with
    Name := desired.Name
    Image := desired.Image
    Command := desired.Command
    Args := desired.Args
    EnvFrom := desired.EnvFrom
    Env := desired.Env
    Resources := desired.Resources
    ImagePullPolicy := desired.ImagePullPolicy
    SecurityContext := desired.SecurityContext
    VolumeMounts := desired.VolumeMounts }

/-- The loop over the existing containers: returns the list after the in-place writes and
the final `foundContainers`, started from `found`. -/
def mergeLoop (desiredContainers : GoMap corev1.Container) :
    List corev1.Container → Nat → List corev1.Container × Nat
  | [], found => ([], found)
  | container :: rest, found =>
    match goMapGet desiredContainers container.Name with
    | some desired =>
      let (rest', found') := mergeLoop desiredContainers rest (found + 1)
      (overwriteContainer container desired :: rest', found')
    | none =>
      let (rest', found') := mergeLoop desiredContainers rest found
      (container :: rest', found')

/-- The container list after lines 126-154: merged in place when every desired key was
counted, otherwise rebuilt from the desired map in the iteration order `order`. -/
def Mutator.containers (x : Externals) (r : Mutator) (order : Bool) : List corev1.Container :=
  let desiredContainers := r.desiredContainers x
  let (merged, foundContainers) :=
    mergeLoop desiredContainers r.Existing.Spec.JobTemplate.Spec.Template.Spec.Containers 0
  if foundContainers ≠ goMapLen desiredContainers then
    goMapRange desiredContainers order
  else
    merged

/-- The body of the mutate function up to, and not including, the owner step. -/
def Mutator.mutateFields (x : Externals) (r : Mutator) (order : Bool) : batchv1.CronJob :=
  let e := r.Existing
  let labels := match e.ObjectMeta.Labels with
    | none => []
    | some m => m
  let labels := goMapSet labels LabelClusterScan r.ClusterScan.ObjectMeta.Name
  let labels := goMapSet labels LabelPlugin r.Plugin.ObjectMeta.Name
  let e := { e with ObjectMeta.Labels := some labels }
  let schedule := if r.PluginRef.Schedule = "" then r.ClusterScan.Spec.Schedule
    else r.PluginRef.Schedule
  let e := { e with Spec.Schedule := schedule }
  let e := { e with Spec.ConcurrencyPolicy := batchv1.ForbidConcurrent }
  let e := { e with
    Spec.SuccessfulJobsHistoryLimit := r.ClusterScan.Spec.SuccessfulScansHistoryLimit }
  let e := { e with Spec.FailedJobsHistoryLimit := r.ClusterScan.Spec.FailedScansHistoryLimit }
  let e := { e with Spec.Suspend := some r.Suspend }
  let e := if !r.Suspend then
      { e with Spec.Suspend :=
          firstNonNilBoolPointer [r.PluginRef.Suspend, r.ClusterScan.Spec.Suspend] }
    else e
  let e := { e with
    Spec.JobTemplate.Spec.Template.Spec.RestartPolicy := corev1.RestartPolicyNever }
  let e := { e with Spec.JobTemplate.Spec.BackoffLimit := some 0 }
  let e := { e with
    Spec.JobTemplate.Spec.Template.Spec.ServiceAccountName := r.ServiceAccountName }
  let volumes : List corev1.Volume :=
    [ { Name := kubeconfigVolumeName
        VolumeSource :=
          { Secret := some
              { SecretName := r.KubeconfigSecret.ObjectMeta.Name
                DefaultMode := some 0o644
                Items := [{ Key := x.SecretField, Path := kubeconfigFile }] } } },
      { Name := resultsVolumeName
        VolumeSource := { EmptyDir := some {} } } ]
  let e := { e with Spec.JobTemplate.Spec.Template.Spec.Volumes := volumes }
  let securityContext : corev1.PodSecurityContext := { RunAsNonRoot := some true }
  let e := { e with
    Spec.JobTemplate.Spec.Template.Spec.SecurityContext := some securityContext }
  let r := { r with Existing := e }
  { e with Spec.JobTemplate.Spec.Template.Spec.Containers := r.containers x order }

/-- The function returned by `Mutate`, run once: the object as the call leaves it and the
error it returns (`none` for nil). -/
def Mutator.Mutate (x : Externals) (r : Mutator) (order : Bool) :
    batchv1.CronJob × Option String :=
  let e := r.mutateFields x order
  match x.SetControllerReference r.ClusterScan e r.Scheme with
  | .error err => (e, some err)
  | .ok refs => ({ e with ObjectMeta.OwnerReferences := refs }, none)

/-- What the loop body does to one container. -/
def mergeOne (desiredContainers : GoMap corev1.Container) (c : corev1.Container) :
    corev1.Container :=
  match goMapGet desiredContainers c.Name with
  | some desired => overwriteContainer c desired
  | none => c

/-- A name is a key of the desired map: it is "worker" or the plugin's name. -/
def Mutator.isDesiredKey (r : Mutator) (name : String) : Bool :=
  decide (name = workerContainerName) || decide (name = r.Plugin.ObjectMeta.Name)

/-- The two volumes written by the mutator. -/
def Mutator.volumes (x : Externals) (r : Mutator) : List corev1.Volume :=
  [ { Name := kubeconfigVolumeName
      VolumeSource :=
        { Secret := some
            { SecretName := r.KubeconfigSecret.ObjectMeta.Name
              DefaultMode := some 0o644
              Items := [{ Key := x.SecretField, Path := kubeconfigFile }] } } },
    { Name := resultsVolumeName
      VolumeSource := { EmptyDir := some {} } } ]

/-- The label map written by the mutator. -/
def Mutator.labels (r : Mutator) : GoMap String :=
  goMapSet
    (goMapSet (match r.Existing.ObjectMeta.Labels with
        | none => []
        | some m => m) LabelClusterScan r.ClusterScan.ObjectMeta.Name)
    LabelPlugin r.Plugin.ObjectMeta.Name

/-- The first run's output with the owner references the owner step stored on it. -/
def Mutator.rerun (x : Externals) (r : Mutator) (order : Bool)
    (refs : List metav1.OwnerReference) : Mutator :=
  { r with Existing := { r.mutateFields x order with ObjectMeta.OwnerReferences := refs } }

/-- The list holds exactly two containers, one named "worker" and one named with the
plugin's name, in either order. -/
def Mutator.namedWorkerAndPlugin (r : Mutator) (cs : List corev1.Container) : Prop :=
  cs.map (fun c => c.Name) = [workerContainerName, r.Plugin.ObjectMeta.Name] ∨
    cs.map (fun c => c.Name) = [r.Plugin.ObjectMeta.Name, workerContainerName]

instance (r : Mutator) (cs : List corev1.Container) : Decidable (r.namedWorkerAndPlugin cs) := by
  unfold Mutator.namedWorkerAndPlugin
  infer_instance

/-- The list is exactly the two desired containers, in either order. -/
def Mutator.isDesiredPair (x : Externals) (r : Mutator) (cs : List corev1.Container) : Prop :=
  cs = [r.workerContainer, r.pluginContainer x] ∨ cs = [r.pluginContainer x, r.workerContainer]

instance (x : Externals) (r : Mutator) (cs : List corev1.Container) :
    Decidable (r.isDesiredPair x cs) := by
  unfold Mutator.isDesiredPair
  infer_instance

/-! ### A concrete deployment, for running the mutator on examples -/

/-- A stand-in for controller-runtime's `SetControllerReference`: it refuses an owner from
another namespace, a ClusterScan type that the scheme does not know under exactly one kind,
and a job that already has another controller; otherwise it replaces the reference to the
scan, or appends it. -/
def sampleSetControllerReference (owner : v1alpha1.ClusterScan) (controlled : batchv1.CronJob)
    (scheme : Scheme) : Except String (List metav1.OwnerReference) :=
  if owner.ObjectMeta.Namespace ≠ "" ∧
      owner.ObjectMeta.Namespace ≠ controlled.ObjectMeta.Namespace then
    .error "cross-namespace owner references are disallowed"
  else
    match scheme.ClusterScanKinds with
    | [(apiVersion, kind)] =>
      let ref : metav1.OwnerReference :=
        { APIVersion := apiVersion, Kind := kind, Name := owner.ObjectMeta.Name,
          UID := owner.ObjectMeta.UID, Controller := some true, BlockOwnerDeletion := some true }
      let same := fun (o : metav1.OwnerReference) =>
        decide (o.APIVersion = ref.APIVersion ∧ o.Kind = ref.Kind ∧ o.Name = ref.Name)
      let owners := controlled.ObjectMeta.OwnerReferences
      match owners.find? (fun o => decide (o.Controller = some true)) with
      | some existing =>
        if same existing then .ok (owners.map (fun o => if same o then ref else o))
        else .error "object is already owned by another controller"
      | none =>
        if owners.any same then .ok (owners.map (fun o => if same o then ref else o))
        else .ok (owners ++ [ref])
    | _ => .error "no kind is registered for the type ClusterScan"

def sampleExternals : Externals :=
  { SecretField := "kubeconfig.yml"
    DefaultPullPolicy := "IfNotPresent"
    SetControllerReference := sampleSetControllerReference }

/-- A mutator for the plugin `pluginName` over a stored job that has the unrelated label
`team: platform` and the containers `containers`. -/
def sampleMutator (pluginName : String) (containers : List corev1.Container) : Mutator :=
  { Scheme := { ClusterScanKinds := [("zora.undistro.io/v1alpha1", "ClusterScan")] }
    Existing :=
      { ObjectMeta :=
          { Name := "mycluster-popeye", Namespace := "zora-system"
            Labels := some [("team", "platform")] }
        Spec :=
          { Schedule := "1 2 3 4 5"
            JobTemplate := { Spec := { Template := { Spec := { Containers := containers } } } } } }
    Plugin :=
      { ObjectMeta := { Name := pluginName, Namespace := "zora-system" }
        Spec := { Image := "registry/plugin:v1", Command := ["/entrypoint.sh"] } }
    PluginRef := { Name := pluginName, Schedule := "*/5 * * * *", Suspend := some true }
    ClusterScan :=
      { ObjectMeta := { Name := "mycluster", Namespace := "zora-system", UID := "u-1" }
        Spec := { ClusterRef := { Name := "mycluster" }, Schedule := "0 * * * *",
                  Suspend := some false } }
    KubeconfigSecret := { ObjectMeta := { Name := "mycluster-kubeconfig" } }
    WorkerImage := "registry/worker:v1"
    ServiceAccountName := "zora-plugins" }

/-- Stored containers: a stale worker, a sidecar the mutator does not own, a stale plugin. -/
def sampleContainers : List corev1.Container :=
  [ { Name := "worker", Image := "registry/worker:v0", WorkingDir := "/work", Args := ["-v"] },
    { Name := "sidecar", Image := "registry/proxy:v3", Ports := [{ ContainerPort := 8080 }] },
    { Name := "popeye", Image := "registry/plugin:v0", TTY := true } ]

/-- Stored containers with a duplicated name and no plugin container. -/
def duplicateWorkers : List corev1.Container :=
  [ { Name := "worker", Image := "registry/worker:v0" },
    { Name := "worker", Image := "registry/other:v0", WorkingDir := "/work" } ]

/-- The container has, in the ten fields the mutator writes apart from the name, what the
plugin container has: the plugin's image, command, args, env-from, resources, security
context and pull policy, the results mount followed by the read-only kubeconfig mount, and
the plugin environment. -/
def Mutator.hasPluginFields (x : Externals) (r : Mutator) (c : corev1.Container) : Prop :=
  c.Image = r.Plugin.Spec.Image ∧ c.Command = r.Plugin.Spec.Command ∧
    c.Args = r.Plugin.Spec.Args ∧ c.EnvFrom = r.Plugin.Spec.EnvFrom ∧
    c.Resources = r.Plugin.Spec.Resources ∧
    c.SecurityContext = r.Plugin.Spec.SecurityContext ∧
    c.ImagePullPolicy = r.Plugin.Spec.GetImagePullPolicy x.DefaultPullPolicy ∧
    c.VolumeMounts =
      [ { Name := "results", MountPath := "/tmp/zora/results" },
        { Name := "kubeconfig", ReadOnly := true, MountPath := "/etc/zora" } ] ∧
    c.Env = r.pluginEnv

instance (x : Externals) (r : Mutator) (c : corev1.Container) :
    Decidable (r.hasPluginFields x c) := by
  unfold Mutator.hasPluginFields
  infer_instance

/-- The container has, in the ten fields the mutator writes apart from the name, what the
worker container has: the worker image, the plugin's resources, exactly the results mount,
the pull policy IfNotPresent, the worker environment, and empty command, args, env-from and
security context. -/
def Mutator.hasWorkerFields (r : Mutator) (c : corev1.Container) : Prop :=
  c.Image = r.WorkerImage ∧ c.Resources = r.Plugin.Spec.Resources ∧
    c.VolumeMounts = [{ Name := "results", MountPath := "/tmp/zora/results" }] ∧
    c.ImagePullPolicy = "IfNotPresent" ∧ c.Env = r.workerEnv ∧
    c.Command = [] ∧ c.Args = [] ∧ c.EnvFrom = [] ∧ c.SecurityContext = none

instance (r : Mutator) (c : corev1.Container) : Decidable (r.hasWorkerFields c) := by
  unfold Mutator.hasWorkerFields
  infer_instance

/-- A single stored container, named "worker". -/
def staleWorker : List corev1.Container :=
  [{ Name := "worker", Image := "registry/worker:v0", WorkingDir := "/work" }]

/-- The first container of the sample job after Mutate on the in-place path: the stored
worker container with the fields the mutator owns overwritten. -/
def sampleMergedWorker : corev1.Container :=
  (((sampleMutator "popeye" sampleContainers).Mutate sampleExternals true
    ).1.Spec.JobTemplate.Spec.Template.Spec.Containers).headD {}

end cronjobs

/-! ## Cluster issues (`apis/zora/v1alpha1`: the fields read by the aggregation) -/

namespace v1alpha1

/-- Modelled from the spec: the label key `LabelScanID`, declared in `apis/zora/v1alpha1`
and used by the test to tag two records; the aggregation does not read labels. -/
def LabelScanID : String := "scanID"

structure ClusterIssueSpec where
  Cluster : String := ""
  ID : String := ""
  Message : String := ""
  Severity : String := ""
  Category : String := ""
  TotalResources : Int := 0
  deriving DecidableEq, Repr

structure ClusterIssue where
  ObjectMeta : metav1.ObjectMeta := {}
  Spec : ClusterIssueSpec := {}
  deriving DecidableEq, Repr

end v1alpha1

/-! ## Package `payloads/v1alpha1` -/

namespace payloads

structure ClusterReference where
  Name : String := ""
  Namespace : String := ""
  TotalResources : Int := 0
  deriving DecidableEq, Repr

structure Issue where
  ApiVersion : String := ""
  ID : String := ""
  Message : String := ""
  Severity : String := ""
  Category : String := ""
  Clusters : List ClusterReference := []
  deriving DecidableEq, Repr

/-- Modelled from the spec: the ClusterReference of one finding, "(name, namespace, resource
count)": the reporting cluster, the namespace of the record and its resource count. -/
def NewClusterReference (clusterIssue : v1alpha1.ClusterIssue) : ClusterReference :=
  { Name := clusterIssue.Spec.Cluster
    Namespace := clusterIssue.ObjectMeta.Namespace
    TotalResources := clusterIssue.Spec.TotalResources }

/-- Modelled from the spec: the entry created "on first sight of an identifier", "copying
message/severity/category from that Finding", with that finding's ClusterReference. The
API version is the one the test expects on every entry. -/
def NewIssue (clusterIssue : v1alpha1.ClusterIssue) : Issue :=
  { ApiVersion := "v1alpha1"
    ID := clusterIssue.Spec.ID
    Message := clusterIssue.Spec.Message
    Severity := clusterIssue.Spec.Severity
    Category := clusterIssue.Spec.Category
    Clusters := [NewClusterReference clusterIssue] }

/-- Modelled from the spec: what a repeat finding adds to the entry of its identifier, "For
every Finding (first or repeat), append one ClusterReference (name, namespace, resource
count) to that entry's cluster list". The test fixes one case in which nothing is appended,
and the model takes over that case and no more: the two records of prd1 for POP-106 give the
same name, namespace and resource count, and the expected entry lists prd1 once. So a finding
whose ClusterReference is already listed, field for field, leaves the entry as it is; every
other finding appends its reference, also one of a cluster that is already listed with
another namespace or resource count ("not merged further", "no intra-cluster summation"). -/
def Issue.addCluster (issue : Issue) (clusterIssue : v1alpha1.ClusterIssue) : Issue :=
  if NewClusterReference clusterIssue ∈ issue.Clusters then issue
  else { issue with Clusters := issue.Clusters ++ [NewClusterReference clusterIssue] }

/-- Modelled from the spec: one step of "iterate findings in input order; maintain a mapping
from finding identifier to an in-progress ReportEntry". -/
def aggregateStep (issuesByID : GoMap Issue) (clusterIssue : v1alpha1.ClusterIssue) :
    GoMap Issue :=
  match goMapGet issuesByID clusterIssue.Spec.ID with
  | none => goMapSet issuesByID clusterIssue.Spec.ID (NewIssue clusterIssue)
  | some issue => goMapSet issuesByID clusterIssue.Spec.ID (issue.addCluster clusterIssue)

/-- Modelled from the spec: `NewIssues` of `pkg/payloads/v1alpha1` (its source file is not
part of the excerpt; `issues_test.go` is), after the algorithm of the spec: the findings are
folded into the mapping in input order and the entries of the mapping are returned. The spec
leaves the output order open; here entries come in the order in which their identifiers are
first seen, and the references of an entry in the order of its findings. -/
def NewIssues (clusterIssues : List v1alpha1.ClusterIssue) : List Issue :=
  (clusterIssues.foldl aggregateStep []).map Prod.snd

/-- The normalisation the test applies to the output before comparing it: the entries
sorted by identifier (`sort.Slice(got, ...)`), the clusters of every entry sorted by name
(`sort.Slice(issue.Clusters, ...)`). Go orders strings lexicographically by bytes, which for
UTF-8 is the lexicographic order of the code points. -/
def sortIssues (got : List Issue) : List Issue :=
  (got.map (fun issue =>
      { issue with
        Clusters := issue.Clusters.insertionSort (fun a b => a.Name.data ≤ b.Name.data) })
    ).insertionSort (fun a b => a.ID.data ≤ b.ID.data)

/-- The findings with identifier `id`, in input order. -/
def findingsWithID (clusterIssues : List v1alpha1.ClusterIssue) (id : String) :
    List v1alpha1.ClusterIssue :=
  clusterIssues.filter (fun f => decide (f.Spec.ID = id))

/-- The input of the test case "OK" of `TestNewIssues`. -/
def testIssues : List v1alpha1.ClusterIssue :=
  [ { ObjectMeta :=
        { Name := "prd1-pop-106-123", Namespace := "prd"
          Labels := some [(v1alpha1.LabelScanID, "123")] }
      Spec :=
        { Cluster := "prd1", ID := "POP-106", Message := "No resources requests/limits defined"
          Severity := "Medium", Category := "Category", TotalResources := 10 } },
    { ObjectMeta :=
        { Name := "prd1-pop-106-456", Namespace := "prd"
          Labels := some [(v1alpha1.LabelScanID, "456")] }
      Spec :=
        { Cluster := "prd1", ID := "POP-106", Message := "No resources requests/limits defined"
          Severity := "Medium", Category := "Category", TotalResources := 10 } },
    { ObjectMeta := { Name := "prd2-pop-777-123", Namespace := "prd" }
      Spec :=
        { Cluster := "prd2", ID := "POP-777", Message := "Message"
          Severity := "Medium", Category := "Category", TotalResources := 7 } },
    { ObjectMeta := { Name := "hml1-pop-106-123", Namespace := "hml" }
      Spec :=
        { Cluster := "hml1", ID := "POP-106", Message := "No resources requests/limits defined"
          Severity := "Medium", Category := "Category", TotalResources := 17 } },
    { ObjectMeta := { Name := "dev1-pop-106-123", Namespace := "dev" }
      Spec :=
        { Cluster := "dev1", ID := "POP-106", Message := "No resources requests/limits defined"
          Severity := "Medium", Category := "Category", TotalResources := 71 } },
    { ObjectMeta := { Name := "dev2-pop-777-123", Namespace := "dev" }
      Spec :=
        { Cluster := "dev2", ID := "POP-777", Message := "Message"
          Severity := "Medium", Category := "Category", TotalResources := 27 } } ]

/-- The expected output of the test case "OK" of `TestNewIssues`. -/
def testWant : List Issue :=
  [ { ApiVersion := "v1alpha1", ID := "POP-106"
      Message := "No resources requests/limits defined"
      Severity := "Medium", Category := "Category"
      Clusters :=
        [ { Name := "dev1", Namespace := "dev", TotalResources := 71 },
          { Name := "hml1", Namespace := "hml", TotalResources := 17 },
          { Name := "prd1", Namespace := "prd", TotalResources := 10 } ] },
    { ApiVersion := "v1alpha1", ID := "POP-777"
      Message := "Message", Severity := "Medium", Category := "Category"
      Clusters :=
        [ { Name := "dev2", Namespace := "dev", TotalResources := 27 },
          { Name := "prd2", Namespace := "prd", TotalResources := 7 } ] } ]

/-- The mapping built from the findings `seen`. -/
def issuesByID (seen : List v1alpha1.ClusterIssue) : GoMap Issue :=
  seen.foldl aggregateStep []

/-- What holds of the mapping `m` once the findings `seen` have been folded into it. -/
structure Aggregated (seen : List v1alpha1.ClusterIssue) (m : GoMap Issue) : Prop where
  keys_nodup : (m.map Prod.fst).Nodup
  keys_iff : ∀ k, k ∈ m.map Prod.fst ↔ k ∈ seen.map (fun f => f.Spec.ID)
  id_eq : ∀ k v, goMapGet m k = some v → v.ID = k
  first : ∀ k v, goMapGet m k = some v →
    ∃ f, seen.find? (fun f => decide (f.Spec.ID = k)) = some f ∧
      v.ApiVersion = "v1alpha1" ∧ v.Message = f.Spec.Message ∧
      v.Severity = f.Spec.Severity ∧ v.Category = f.Spec.Category
  clusters_nodup : ∀ k v, goMapGet m k = some v → v.Clusters.Nodup
  clusters_sound : ∀ k v, goMapGet m k = some v → ∀ c ∈ v.Clusters,
    ∃ f ∈ seen, f.Spec.ID = k ∧ c = NewClusterReference f
  clusters_complete : ∀ k v, goMapGet m k = some v → ∀ f ∈ seen, f.Spec.ID = k →
    NewClusterReference f ∈ v.Clusters

/-- The number of ClusterReferences over all entries of a mapping. -/
def totalClusters (m : GoMap Issue) : Nat :=
  (m.map (fun p => p.2.Clusters.length)).sum

/-- The entry for POP-777 that `NewIssues` returns on the test input, before sorting. -/
def testGotPOP777 : Issue :=
  { ApiVersion := "v1alpha1", ID := "POP-777"
    Message := "Message", Severity := "Medium", Category := "Category"
    Clusters :=
      [ { Name := "prd2", Namespace := "prd", TotalResources := 7 },
        { Name := "dev2", Namespace := "dev", TotalResources := 27 } ] }

/-- The entry for POP-106 that `NewIssues` returns on the test input, before sorting: the
two records of prd1 give one reference. -/
def testGotPOP106 : Issue :=
  { ApiVersion := "v1alpha1", ID := "POP-106"
    Message := "No resources requests/limits defined"
    Severity := "Medium", Category := "Category"
    Clusters :=
      [ { Name := "prd1", Namespace := "prd", TotalResources := 10 },
        { Name := "hml1", Namespace := "hml", TotalResources := 17 },
        { Name := "dev1", Namespace := "dev", TotalResources := 71 } ] }

/-- Two findings of one identifier from the same cluster and namespace, taken at two scans
that counted 10 and 12 resources. -/
def repeatedIssues : List v1alpha1.ClusterIssue :=
  [ { ObjectMeta := { Name := "prd1-pop-106-123", Namespace := "prd" }
      Spec :=
        { Cluster := "prd1", ID := "POP-106", Message := "No resources requests/limits defined"
          Severity := "Medium", Category := "Category", TotalResources := 10 } },
    { ObjectMeta := { Name := "prd1-pop-106-456", Namespace := "prd" }
      Spec :=
        { Cluster := "prd1", ID := "POP-106", Message := "No resources requests/limits defined"
          Severity := "Medium", Category := "Category", TotalResources := 12 } } ]

end payloads

/-! # Theorems -/

/-! ## Lemmas on Go maps -/

theorem goMapGet_goMapSet {V : Type} (m : GoMap V) (k k' : String) (v : V) :
    goMapGet (goMapSet m k v) k' = if k' = k then some v else goMapGet m k' := by
  induction m with
  | nil =>
    by_cases h : k = k'
    · subst h; simp [goMapSet, goMapGet]
    · have h' : ¬ k' = k := fun e => h e.symm
      simp [goMapSet, goMapGet, h, h']
  | cons p rest ih =>
    obtain ⟨k0, v0⟩ := p
    by_cases h0 : k0 = k
    · subst h0
      by_cases h : k0 = k'
      · subst h; simp [goMapSet, goMapGet]
      · have h' : ¬ k' = k0 := fun e => h e.symm
        simp [goMapSet, goMapGet, h, h']
    · by_cases h : k0 = k'
      · subst h
        have h' : ¬ k0 = k := h0
        simp [goMapSet, goMapGet, h0]
      · simp [goMapSet, goMapGet, h0, h, ih]

theorem goMapSet_eq_self {V : Type} (m : GoMap V) (k : String) (v : V)
    (h : goMapGet m k = some v) : goMapSet m k v = m := by
  induction m with
  | nil => simp [goMapGet] at h
  | cons p rest ih =>
    obtain ⟨k0, v0⟩ := p
    by_cases h0 : k0 = k
    · subst h0
      simp [goMapGet] at h
      simp [goMapSet, h]
    · simp [goMapGet, h0] at h
      simp [goMapSet, h0, ih h]

/-- Writing the two labels a second time changes nothing. -/
theorem goMapSet_twice_stable {V : Type} (m : GoMap V) (k₁ k₂ : String) (v₁ v₂ : V)
    (hk : k₁ ≠ k₂) :
    goMapSet (goMapSet (goMapSet (goMapSet m k₁ v₁) k₂ v₂) k₁ v₁) k₂ v₂ =
      goMapSet (goMapSet m k₁ v₁) k₂ v₂ := by
  have h1 : goMapSet (goMapSet (goMapSet m k₁ v₁) k₂ v₂) k₁ v₁ =
      goMapSet (goMapSet m k₁ v₁) k₂ v₂ := by
    apply goMapSet_eq_self
    rw [goMapGet_goMapSet, goMapGet_goMapSet]
    simp [hk]
  rw [h1]
  apply goMapSet_eq_self
  rw [goMapGet_goMapSet]
  simp

/-! ## More lemmas on Go maps -/

theorem goMapSet_keys {V : Type} (m : GoMap V) (k : String) (v : V) :
    (goMapSet m k v).map Prod.fst =
      if k ∈ m.map Prod.fst then m.map Prod.fst else m.map Prod.fst ++ [k] := by
  induction m with
  | nil => simp [goMapSet]
  | cons p rest ih =>
    obtain ⟨k0, v0⟩ := p
    by_cases h0 : k0 = k
    · subst h0; simp [goMapSet]
    · have h0' : ¬ k = k0 := fun e => h0 e.symm
      simp only [goMapSet, if_neg h0, List.map_cons, ih, List.mem_cons, h0', false_or]
      split <;> simp

theorem goMapGet_eq_none_iff {V : Type} (m : GoMap V) (k : String) :
    goMapGet m k = none ↔ k ∉ m.map Prod.fst := by
  induction m with
  | nil => simp [goMapGet]
  | cons p rest ih =>
    obtain ⟨k0, v0⟩ := p
    by_cases h0 : k0 = k
    · subst h0; simp [goMapGet]
    · have h0' : ¬ k = k0 := fun e => h0 e.symm
      simp [goMapGet, h0, h0', ih]

theorem mem_of_goMapGet {V : Type} (m : GoMap V) (k : String) (v : V)
    (h : goMapGet m k = some v) : (k, v) ∈ m := by
  induction m with
  | nil => simp [goMapGet] at h
  | cons p rest ih =>
    obtain ⟨k0, v0⟩ := p
    by_cases h0 : k0 = k
    · subst h0
      simp [goMapGet] at h
      simp [h]
    · simp [goMapGet, h0] at h
      exact List.mem_cons_of_mem _ (ih h)

theorem goMapGet_of_mem {V : Type} (m : GoMap V) (k : String) (v : V)
    (hnd : (m.map Prod.fst).Nodup) (h : (k, v) ∈ m) : goMapGet m k = some v := by
  induction m with
  | nil => simp at h
  | cons p rest ih =>
    obtain ⟨k0, v0⟩ := p
    simp only [List.map_cons, List.nodup_cons] at hnd
    rcases List.mem_cons.mp h with h | h
    · cases h; simp [goMapGet]
    · have hk : k ∈ rest.map Prod.fst := List.mem_map.mpr ⟨(k, v), h, rfl⟩
      have h0 : ¬ k0 = k := fun e => hnd.1 (e ▸ hk)
      simp [goMapGet, h0, ih hnd.2 h]

namespace cronjobs
open corev1 batchv1 v1alpha1 metav1

/-! ## The container loop -/

theorem mergeLoop_fst (d : GoMap corev1.Container) (cs : List corev1.Container) (n : Nat) :
    (mergeLoop d cs n).1 = cs.map (mergeOne d) := by
  induction cs generalizing n with
  | nil => rfl
  | cons c rest ih =>
    cases hg : goMapGet d c.Name with
    | none => simp [mergeLoop, mergeOne, hg, ih]
    | some des => simp [mergeLoop, mergeOne, hg, ih]

theorem mergeLoop_snd (d : GoMap corev1.Container) (cs : List corev1.Container) (n : Nat) :
    (mergeLoop d cs n).2 = n + cs.countP (fun c => (goMapGet d c.Name).isSome) := by
  induction cs generalizing n with
  | nil => simp [mergeLoop]
  | cons c rest ih =>
    cases hg : goMapGet d c.Name with
    | none => simp [mergeLoop, hg, ih]
    | some des => simp [mergeLoop, hg, ih, List.countP_cons]; omega

theorem workerContainer_Name (r : Mutator) : r.workerContainer.Name = workerContainerName := rfl

theorem pluginContainer_Name (x : Externals) (r : Mutator) :
    (r.pluginContainer x).Name = r.Plugin.ObjectMeta.Name := rfl

theorem desiredContainers_of_ne (x : Externals) (r : Mutator)
    (h : r.Plugin.ObjectMeta.Name ≠ workerContainerName) :
    r.desiredContainers x =
      [(workerContainerName, r.workerContainer), (r.Plugin.ObjectMeta.Name, r.pluginContainer x)] := by
  have h' : ¬ workerContainerName = r.Plugin.ObjectMeta.Name := fun e => h e.symm
  simp [Mutator.desiredContainers, goMapSet, h']

theorem desiredContainers_of_eq (x : Externals) (r : Mutator)
    (h : r.Plugin.ObjectMeta.Name = workerContainerName) :
    r.desiredContainers x = [(r.Plugin.ObjectMeta.Name, r.pluginContainer x)] := by
  simp [Mutator.desiredContainers, goMapSet, h]

/-- Every entry of the desired map is stored under its own container name. -/
theorem desiredContainers_get_Name (x : Externals) (r : Mutator) (k : String)
    (c : corev1.Container) (h : goMapGet (r.desiredContainers x) k = some c) : c.Name = k := by
  by_cases hp : r.Plugin.ObjectMeta.Name = workerContainerName
  · rw [desiredContainers_of_eq x r hp] at h
    simp only [goMapGet] at h
    split at h
    · next hk => cases h; rw [pluginContainer_Name]; exact hk
    · cases h
  · rw [desiredContainers_of_ne x r hp] at h
    simp only [goMapGet] at h
    split at h
    · next hk => cases h; rw [workerContainer_Name]; exact hk
    · split at h
      · next hk => cases h; rw [pluginContainer_Name]; exact hk
      · cases h

theorem desiredContainers_get_isSome (x : Externals) (r : Mutator) (k : String) :
    (goMapGet (r.desiredContainers x) k).isSome = r.isDesiredKey k := by
  by_cases hp : r.Plugin.ObjectMeta.Name = workerContainerName
  · rw [desiredContainers_of_eq x r hp]
    by_cases hk : r.Plugin.ObjectMeta.Name = k
    · have : k = workerContainerName := by rw [← hk, hp]
      simp [goMapGet, Mutator.isDesiredKey, hk, this]
    · have h1 : ¬ k = r.Plugin.ObjectMeta.Name := fun e => hk e.symm
      have h2 : ¬ k = workerContainerName := fun e => hk (by rw [hp, e])
      simp [goMapGet, Mutator.isDesiredKey, hk, h1, h2]
  · rw [desiredContainers_of_ne x r hp]
    by_cases hw : workerContainerName = k
    · simp [goMapGet, Mutator.isDesiredKey, hw]
    · have h1 : ¬ k = workerContainerName := fun e => hw e.symm
      by_cases hk : r.Plugin.ObjectMeta.Name = k
      · simp [goMapGet, Mutator.isDesiredKey, hw, hk]
      · have h2 : ¬ k = r.Plugin.ObjectMeta.Name := fun e => hk e.symm
        simp [goMapGet, Mutator.isDesiredKey, hw, hk, h1, h2]

/-- Every container produced by ranging over the desired map is found again under its own
name, and the range has as many elements as the map has keys. -/
theorem desiredContainers_range (x : Externals) (r : Mutator) (order : Bool) :
    (goMapRange (r.desiredContainers x) order).length = goMapLen (r.desiredContainers x) ∧
    ∀ c ∈ goMapRange (r.desiredContainers x) order,
      goMapGet (r.desiredContainers x) c.Name = some c := by
  by_cases hp : r.Plugin.ObjectMeta.Name = workerContainerName
  · rw [desiredContainers_of_eq x r hp]
    cases order <;> simp [goMapRange, goMapLen, goMapGet, pluginContainer_Name]
  · rw [desiredContainers_of_ne x r hp]
    have h' : ¬ workerContainerName = r.Plugin.ObjectMeta.Name := fun e => hp e.symm
    cases order <;>
      simp [goMapRange, goMapLen, goMapGet, pluginContainer_Name, workerContainer_Name, h']

theorem overwriteContainer_self (c : corev1.Container) : overwriteContainer c c = c := rfl

theorem overwriteContainer_Name (c d : corev1.Container) :
    (overwriteContainer c d).Name = d.Name := rfl

theorem overwriteContainer_idem (c d : corev1.Container) :
    overwriteContainer (overwriteContainer c d) d = overwriteContainer c d := rfl

theorem mergeOne_Name (x : Externals) (r : Mutator) (c : corev1.Container) :
    (mergeOne (r.desiredContainers x) c).Name = c.Name := by
  unfold mergeOne
  cases hg : goMapGet (r.desiredContainers x) c.Name with
  | none => rfl
  | some d => simp [overwriteContainer_Name, desiredContainers_get_Name x r _ _ hg]

theorem mergeOne_idem (x : Externals) (r : Mutator) (c : corev1.Container) :
    mergeOne (r.desiredContainers x) (mergeOne (r.desiredContainers x) c) =
      mergeOne (r.desiredContainers x) c := by
  have hn := mergeOne_Name x r c
  cases hg : goMapGet (r.desiredContainers x) c.Name with
  | none => simp [mergeOne, hg]
  | some d =>
    have h1 : mergeOne (r.desiredContainers x) c = overwriteContainer c d := by
      simp [mergeOne, hg]
    rw [h1] at hn ⊢
    unfold mergeOne
    rw [hn, hg]
    exact overwriteContainer_idem c d

/-- The container list after the merge, in closed form. -/
theorem containers_eq (x : Externals) (r : Mutator) (order : Bool) :
    r.containers x order =
      if (r.Existing.Spec.JobTemplate.Spec.Template.Spec.Containers.countP
            (fun c => r.isDesiredKey c.Name)) ≠ goMapLen (r.desiredContainers x) then
        goMapRange (r.desiredContainers x) order
      else
        r.Existing.Spec.JobTemplate.Spec.Template.Spec.Containers.map
          (mergeOne (r.desiredContainers x)) := by
  have h1 := mergeLoop_fst (r.desiredContainers x)
    r.Existing.Spec.JobTemplate.Spec.Template.Spec.Containers 0
  have h2 := mergeLoop_snd (r.desiredContainers x)
    r.Existing.Spec.JobTemplate.Spec.Template.Spec.Containers 0
  simp only [desiredContainers_get_isSome, Nat.zero_add] at h2
  unfold Mutator.containers
  simp only [h1, h2]

/-- The object before the owner step, field by field. -/
theorem mutateFields_eq (x : Externals) (r : Mutator) (order : Bool) :
    r.mutateFields x order =
      { ObjectMeta := { r.Existing.ObjectMeta with Labels := some r.labels }
        Spec := { r.Existing.Spec with
          Schedule := if r.PluginRef.Schedule = "" then r.ClusterScan.Spec.Schedule
            else r.PluginRef.Schedule
          ConcurrencyPolicy := batchv1.ForbidConcurrent
          SuccessfulJobsHistoryLimit := r.ClusterScan.Spec.SuccessfulScansHistoryLimit
          FailedJobsHistoryLimit := r.ClusterScan.Spec.FailedScansHistoryLimit
          Suspend := if r.Suspend then some true
            else firstNonNilBoolPointer [r.PluginRef.Suspend, r.ClusterScan.Spec.Suspend]
          JobTemplate := { r.Existing.Spec.JobTemplate with
            Spec := { r.Existing.Spec.JobTemplate.Spec with
              BackoffLimit := some 0
              Template := { r.Existing.Spec.JobTemplate.Spec.Template with
                Spec := { r.Existing.Spec.JobTemplate.Spec.Template.Spec with
                  RestartPolicy := corev1.RestartPolicyNever
                  ServiceAccountName := r.ServiceAccountName
                  Volumes := r.volumes x
                  SecurityContext := some { RunAsNonRoot := some true }
                  Containers := r.containers x order } } } } } } := by
  obtain ⟨sch, e, p, pr, cs, ks, wi, sa, s⟩ := r
  cases s <;> rfl

/-- The container list produced by the merge is a fixed point of the merge: every desired key
is counted exactly once per desired entry, and the in-place writes change nothing. -/
theorem containers_fixed (x : Externals) (r : Mutator) (order : Bool) :
    (r.containers x order).countP (fun c => r.isDesiredKey c.Name) =
        goMapLen (r.desiredContainers x) ∧
      (r.containers x order).map (mergeOne (r.desiredContainers x)) = r.containers x order := by
  rw [containers_eq]
  split
  · obtain ⟨hlen, hget⟩ := desiredContainers_range x r order
    constructor
    · rw [← hlen, List.countP_eq_length]
      intro c hc
      rw [← desiredContainers_get_isSome x r, hget c hc]
      rfl
    · conv => rhs; rw [← List.map_id (goMapRange (r.desiredContainers x) order)]
      apply List.map_congr_left
      intro c hc
      simp only [mergeOne, hget c hc, id]
      rfl
  · next h =>
    have h' := not_not.mp h
    constructor
    · rw [List.countP_map, ← h']
      apply List.countP_congr
      intro c _
      simp [mergeOne_Name]
    · rw [List.map_map]
      apply List.map_congr_left
      intro c _
      exact mergeOne_idem x r c

theorem rerun_desiredContainers (x : Externals) (r : Mutator) (order : Bool)
    (refs : List metav1.OwnerReference) :
    (r.rerun x order refs).desiredContainers x = r.desiredContainers x := by
  unfold Mutator.rerun
  rw [mutateFields_eq]
  rfl

theorem rerun_Containers (x : Externals) (r : Mutator) (order : Bool)
    (refs : List metav1.OwnerReference) :
    (r.rerun x order refs).Existing.Spec.JobTemplate.Spec.Template.Spec.Containers =
      r.containers x order := by
  unfold Mutator.rerun
  rw [mutateFields_eq]

theorem rerun_containers (x : Externals) (r : Mutator) (o₁ o₂ : Bool)
    (refs : List metav1.OwnerReference) :
    (r.rerun x o₁ refs).containers x o₂ = r.containers x o₁ := by
  obtain ⟨hcount, hmap⟩ := containers_fixed x r o₁
  rw [containers_eq, rerun_desiredContainers, rerun_Containers]
  have hkey : (fun c : corev1.Container => (r.rerun x o₁ refs).isDesiredKey c.Name) =
      (fun c => r.isDesiredKey c.Name) := rfl
  rw [hkey, hcount, hmap]
  simp

theorem rerun_labels (x : Externals) (r : Mutator) (order : Bool)
    (refs : List metav1.OwnerReference) :
    (r.rerun x order refs).labels = r.labels := by
  have h : (r.rerun x order refs).labels =
      goMapSet (goMapSet r.labels LabelClusterScan r.ClusterScan.ObjectMeta.Name)
        LabelPlugin r.Plugin.ObjectMeta.Name := by
    unfold Mutator.rerun
    rw [mutateFields_eq]
    rfl
  rw [h]
  exact goMapSet_twice_stable _ _ _ _ _ (by decide)

/-- The field writes, run on the first run's output, change nothing. -/
theorem mutateFields_rerun (x : Externals) (r : Mutator) (o₁ o₂ : Bool)
    (refs : List metav1.OwnerReference) :
    (r.rerun x o₁ refs).mutateFields x o₂ = (r.rerun x o₁ refs).Existing := by
  rw [mutateFields_eq x (r.rerun x o₁ refs) o₂, rerun_labels, rerun_containers]
  unfold Mutator.rerun
  rw [mutateFields_eq]
  rfl

theorem Mutate_eq (x : Externals) (r : Mutator) (order : Bool) :
    r.Mutate x order =
      match x.SetControllerReference r.ClusterScan (r.mutateFields x order) r.Scheme with
      | .error err => (r.mutateFields x order, some err)
      | .ok refs => ({ r.mutateFields x order with ObjectMeta.OwnerReferences := refs }, none) :=
  rfl

theorem Mutate_fst (x : Externals) (r : Mutator) (order : Bool) :
    ∃ refs, (r.Mutate x order).1 =
      { r.mutateFields x order with ObjectMeta.OwnerReferences := refs } := by
  rw [Mutate_eq]
  cases x.SetControllerReference r.ClusterScan (r.mutateFields x order) r.Scheme with
  | error err => exact ⟨(r.mutateFields x order).ObjectMeta.OwnerReferences, rfl⟩
  | ok refs => exact ⟨refs, rfl⟩

/-- C1. Mutate is idempotent. When a run of Mutate succeeds and leaves the object `e₁`, and
the owner step run again on `e₁` returns the owner references `e₁` already carries, a second
run of Mutate on `e₁` with the same configuration succeeds and leaves `e₁` again: labels,
schedule, suspend value, policies, volumes and the container list in its order are those of
the first run, whatever the iteration orders of the desired map in the two runs. -/
theorem Mutate_idempotent (x : Externals) (r : Mutator) (o₁ o₂ : Bool) (e₁ : batchv1.CronJob)
    (h₁ : r.Mutate x o₁ = (e₁, none))
    (h₂ : x.SetControllerReference r.ClusterScan e₁ r.Scheme =
      .ok e₁.ObjectMeta.OwnerReferences) :
    Mutator.Mutate x { r with Existing := e₁ } o₂ = (e₁, none) := by
  have hrun : ∃ refs, { r with Existing := e₁ } = r.rerun x o₁ refs := by
    rw [Mutate_eq] at h₁
    cases hs : x.SetControllerReference r.ClusterScan (r.mutateFields x o₁) r.Scheme with
    | error err => rw [hs] at h₁; simp at h₁
    | ok refs =>
      rw [hs] at h₁
      simp only [Prod.mk.injEq, and_true] at h₁
      exact ⟨refs, by rw [← h₁]; rfl⟩
  obtain ⟨refs, hrun⟩ := hrun
  have he : (r.rerun x o₁ refs).Existing = e₁ := by rw [← hrun]
  have hm : (r.rerun x o₁ refs).mutateFields x o₂ = e₁ := by
    rw [mutateFields_rerun, he]
  have h₂' : x.SetControllerReference (r.rerun x o₁ refs).ClusterScan e₁
      (r.rerun x o₁ refs).Scheme = .ok e₁.ObjectMeta.OwnerReferences := h₂
  rw [hrun, Mutate_eq, hm, h₂']

theorem Mutate_idempotent_witness :
    Mutator.Mutate sampleExternals
        { sampleMutator "popeye" sampleContainers with
          Existing := ((sampleMutator "popeye" sampleContainers).Mutate sampleExternals true).1 }
        false =
      (((sampleMutator "popeye" sampleContainers).Mutate sampleExternals true).1, none) :=
  Mutate_idempotent sampleExternals (sampleMutator "popeye" sampleContainers) true false _
    (by decide) (by rfl)

theorem Mutate_Containers (x : Externals) (r : Mutator) (order : Bool) :
    (r.Mutate x order).1.Spec.JobTemplate.Spec.Template.Spec.Containers =
      r.containers x order := by
  obtain ⟨refs, h⟩ := Mutate_fst x r order
  rw [h, mutateFields_eq]

theorem desiredContainers_len (x : Externals) (r : Mutator) :
    goMapLen (r.desiredContainers x) =
      if r.Plugin.ObjectMeta.Name = workerContainerName then 1 else 2 := by
  by_cases hp : r.Plugin.ObjectMeta.Name = workerContainerName
  · rw [desiredContainers_of_eq x r hp]; simp [goMapLen, hp]
  · rw [desiredContainers_of_ne x r hp]; simp [goMapLen, hp]

theorem mergeOne_of_not_key (x : Externals) (r : Mutator) (c : corev1.Container)
    (h : r.isDesiredKey c.Name = false) : mergeOne (r.desiredContainers x) c = c := by
  have hs := desiredContainers_get_isSome x r c.Name
  rw [h] at hs
  unfold mergeOne
  cases hg : goMapGet (r.desiredContainers x) c.Name with
  | none => rfl
  | some d => rw [hg] at hs; simp at hs

theorem mergeOne_frame (d : GoMap corev1.Container) (c : corev1.Container) :
    (mergeOne d c).WorkingDir = c.WorkingDir ∧ (mergeOne d c).Ports = c.Ports ∧
    (mergeOne d c).LivenessProbe = c.LivenessProbe ∧
    (mergeOne d c).ReadinessProbe = c.ReadinessProbe ∧
    (mergeOne d c).StartupProbe = c.StartupProbe ∧
    (mergeOne d c).TerminationMessagePath = c.TerminationMessagePath ∧
    (mergeOne d c).Stdin = c.Stdin ∧ (mergeOne d c).TTY = c.TTY := by
  unfold mergeOne
  cases goMapGet d c.Name with
  | none => simp
  | some des => simp [overwriteContainer]

/-- C2. On the in-place path (as many existing containers carry a desired key as there are
desired keys) the container list keeps its length; the container at each index keeps its
name; a container whose name is not a desired key is unchanged; and a matched container
keeps every field outside the ten the mutator writes (working dir, ports, the three probes,
termination message path, stdin, tty). -/
theorem Mutate_containers_frame (x : Externals) (r : Mutator) (order : Bool)
    (h : r.Existing.Spec.JobTemplate.Spec.Template.Spec.Containers.countP
        (fun c => r.isDesiredKey c.Name) =
      if r.Plugin.ObjectMeta.Name = workerContainerName then 1 else 2) :
    ((r.Mutate x order).1.Spec.JobTemplate.Spec.Template.Spec.Containers).length =
        r.Existing.Spec.JobTemplate.Spec.Template.Spec.Containers.length ∧
    ∀ (i : Nat) (c : corev1.Container),
      r.Existing.Spec.JobTemplate.Spec.Template.Spec.Containers[i]? = some c →
      ∃ c', (r.Mutate x order).1.Spec.JobTemplate.Spec.Template.Spec.Containers[i]? = some c' ∧
        c'.Name = c.Name ∧
        (r.isDesiredKey c.Name = false → c' = c) ∧
        c'.WorkingDir = c.WorkingDir ∧ c'.Ports = c.Ports ∧
        c'.LivenessProbe = c.LivenessProbe ∧ c'.ReadinessProbe = c.ReadinessProbe ∧
        c'.StartupProbe = c.StartupProbe ∧
        c'.TerminationMessagePath = c.TerminationMessagePath ∧
        c'.Stdin = c.Stdin ∧ c'.TTY = c.TTY := by
  have hc : (r.Mutate x order).1.Spec.JobTemplate.Spec.Template.Spec.Containers =
      r.Existing.Spec.JobTemplate.Spec.Template.Spec.Containers.map
        (mergeOne (r.desiredContainers x)) := by
    rw [Mutate_Containers, containers_eq, desiredContainers_len, h]
    simp
  rw [hc]
  refine ⟨by simp, ?_⟩
  intro i c hi
  refine ⟨mergeOne (r.desiredContainers x) c, by simp [hi], mergeOne_Name x r c,
    mergeOne_of_not_key x r c, mergeOne_frame _ c⟩

theorem Mutate_containers_frame_witness :
    ((((sampleMutator "popeye" sampleContainers).Mutate sampleExternals true).1
        ).Spec.JobTemplate.Spec.Template.Spec.Containers).length = 3 ∧
    ∀ (i : Nat) (c : corev1.Container),
      sampleContainers[i]? = some c →
      ∃ c', ((sampleMutator "popeye" sampleContainers).Mutate sampleExternals true
          ).1.Spec.JobTemplate.Spec.Template.Spec.Containers[i]? = some c' ∧
        c'.Name = c.Name ∧
        ((sampleMutator "popeye" sampleContainers).isDesiredKey c.Name = false → c' = c) ∧
        c'.WorkingDir = c.WorkingDir ∧ c'.Ports = c.Ports ∧
        c'.LivenessProbe = c.LivenessProbe ∧ c'.ReadinessProbe = c.ReadinessProbe ∧
        c'.StartupProbe = c.StartupProbe ∧
        c'.TerminationMessagePath = c.TerminationMessagePath ∧
        c'.Stdin = c.Stdin ∧ c'.TTY = c.TTY :=
  Mutate_containers_frame sampleExternals (sampleMutator "popeye" sampleContainers) true
    (by decide)

/-- C3. After Mutate the label map is present and reads, at every key, as the existing map
(empty when absent) with the key "zora.undistro.io/cluster-scan" set to the cluster scan's
name and the key "zora.undistro.io/plugin" set to the plugin's name: the two labels have
these values, every other key keeps its value, and a key that was absent stays absent. On
the sample job, which carries the label team=platform, the map after Mutate holds that label
and the two written ones. -/
theorem Mutate_labels (x : Externals) (r : Mutator) (order : Bool) :
    (∃ labels, (r.Mutate x order).1.ObjectMeta.Labels = some labels ∧
      ∀ k, goMapGet labels k =
        if k = "zora.undistro.io/plugin" then some r.Plugin.ObjectMeta.Name
        else if k = "zora.undistro.io/cluster-scan" then some r.ClusterScan.ObjectMeta.Name
        else match r.Existing.ObjectMeta.Labels with
          | none => none
          | some m => goMapGet m k) ∧
      ((sampleMutator "popeye" sampleContainers).Mutate sampleExternals true
          ).1.ObjectMeta.Labels =
        some [("team", "platform"), ("zora.undistro.io/cluster-scan", "mycluster"),
          ("zora.undistro.io/plugin", "popeye")] := by
  obtain ⟨refs, h⟩ := Mutate_fst x r order
  refine ⟨⟨r.labels, by rw [h, mutateFields_eq], ?_⟩, by decide⟩
  intro k
  unfold Mutator.labels
  rw [goMapGet_goMapSet, goMapGet_goMapSet]
  cases r.Existing.ObjectMeta.Labels <;> rfl

/-- C4. After Mutate the suspend pointer is non-nil; it holds true when the global flag is
set, else the plugin override's value when that pointer is non-nil, else the scan's value
when that pointer is non-nil, else false. -/
theorem Mutate_suspend (x : Externals) (r : Mutator) (order : Bool) :
    (r.Mutate x order).1.Spec.Suspend =
      some (if r.Suspend = true then true
        else match r.PluginRef.Suspend with
          | some b => b
          | none => match r.ClusterScan.Spec.Suspend with
            | some b => b
            | none => false) := by
  obtain ⟨refs, h⟩ := Mutate_fst x r order
  rw [h, mutateFields_eq]
  cases r.Suspend <;> cases r.PluginRef.Suspend <;> cases r.ClusterScan.Spec.Suspend <;> rfl

/-- C5. After Mutate the schedule is the plugin override's schedule when that is non-empty
and the cluster scan's schedule otherwise, whatever schedule the existing object held; in
particular the override "*/5 * * * *" wins over the scan's "0 * * * *". -/
theorem Mutate_schedule (x : Externals) (r : Mutator) (order : Bool) :
    (r.Mutate x order).1.Spec.Schedule =
        (if r.PluginRef.Schedule ≠ "" then r.PluginRef.Schedule
          else r.ClusterScan.Spec.Schedule) ∧
      (Mutator.Mutate x
          { r with
            PluginRef.Schedule := "*/5 * * * *"
            ClusterScan.Spec.Schedule := "0 * * * *" } order).1.Spec.Schedule =
        "*/5 * * * *" := by
  have hs : ∀ r' : Mutator, (r'.Mutate x order).1.Spec.Schedule =
      (if r'.PluginRef.Schedule ≠ "" then r'.PluginRef.Schedule
        else r'.ClusterScan.Spec.Schedule) := by
    intro r'
    obtain ⟨refs, h⟩ := Mutate_fst x r' order
    rw [h, mutateFields_eq]
    by_cases he : r'.PluginRef.Schedule = "" <;> simp [he]
  refine ⟨hs r, ?_⟩
  rw [hs]
  show (if ("*/5 * * * *" : String) ≠ "" then "*/5 * * * *" else "0 * * * *") = "*/5 * * * *"
  decide

theorem containers_of_count_ne (x : Externals) (r : Mutator) (order : Bool)
    (hp : r.Plugin.ObjectMeta.Name ≠ workerContainerName)
    (h : r.Existing.Spec.JobTemplate.Spec.Template.Spec.Containers.countP
        (fun c => r.isDesiredKey c.Name) ≠ 2) :
    r.containers x order =
      if order then [r.workerContainer, r.pluginContainer x]
      else [r.pluginContainer x, r.workerContainer] := by
  rw [containers_eq, desiredContainers_len, if_neg hp, if_pos h, desiredContainers_of_ne x r hp]
  cases order <;> simp [goMapRange]

/-- With pairwise distinct names, at most one container is named `a` and at most one `b`. -/
theorem countP_two_names_le (names : List String) (a b : String) (hab : a ≠ b)
    (hnd : names.Nodup) (hmiss : a ∉ names ∨ b ∉ names) :
    names.countP (fun n => decide (n = a) || decide (n = b)) ≤ 1 := by
  induction names with
  | nil => simp
  | cons n rest ih =>
    have hnd' := List.nodup_cons.mp hnd
    rw [List.countP_cons]
    have hzero : ∀ k, k ∉ rest → rest.countP (fun m => decide (m = k)) = 0 := by
      intro k hk
      rw [List.countP_eq_zero]
      intro m hm
      simp only [decide_eq_true_eq]
      intro hmk
      exact hk (hmk ▸ hm)
    by_cases hna : n = a
    · subst hna
      have hb : b ∉ rest := by
        rcases hmiss with h | h
        · exact absurd (List.mem_cons_self _ _) h
        · exact fun hm => h (List.mem_cons_of_mem _ hm)
      have h0 : rest.countP (fun m => decide (m = n) || decide (m = b)) = 0 := by
        rw [List.countP_eq_zero]
        intro m hm
        have h1 : m ≠ n := fun e => hnd'.1 (e ▸ hm)
        have h2 : m ≠ b := fun e => hb (e ▸ hm)
        simp [h1, h2]
      rw [h0]
      simp
    · by_cases hnb : n = b
      · subst hnb
        have ha : a ∉ rest := by
          rcases hmiss with h | h
          · exact fun hm => h (List.mem_cons_of_mem _ hm)
          · exact absurd (List.mem_cons_self _ _) h
        have h0 : rest.countP (fun m => decide (m = a) || decide (m = n)) = 0 := by
          rw [List.countP_eq_zero]
          intro m hm
          have h1 : m ≠ n := fun e => hnd'.1 (e ▸ hm)
          have h2 : m ≠ a := fun e => ha (e ▸ hm)
          simp [h1, h2]
        rw [h0]
        simp
      · have hmiss' : a ∉ rest ∨ b ∉ rest := by
          rcases hmiss with h | h
          · exact Or.inl (fun hm => h (List.mem_cons_of_mem _ hm))
          · exact Or.inr (fun hm => h (List.mem_cons_of_mem _ hm))
        have := ih hnd'.2 hmiss'
        simp [hna, hnb]
        exact this

/-- C6, amended. When the existing object has no containers and the plugin is not itself
named "worker", after Mutate the container list has exactly two containers, one named
"worker" and one named with the plugin's name. -/
theorem Mutate_container_fallback (x : Externals) (r : Mutator) (order : Bool)
    (hempty : r.Existing.Spec.JobTemplate.Spec.Template.Spec.Containers = [])
    (hp : r.Plugin.ObjectMeta.Name ≠ workerContainerName) :
    ((r.Mutate x order).1.Spec.JobTemplate.Spec.Template.Spec.Containers).length = 2 ∧
      r.namedWorkerAndPlugin
        (r.Mutate x order).1.Spec.JobTemplate.Spec.Template.Spec.Containers := by
  have hcount : r.Existing.Spec.JobTemplate.Spec.Template.Spec.Containers.countP
      (fun c => r.isDesiredKey c.Name) ≠ 2 := by
    rw [hempty]; simp
  rw [Mutate_Containers, containers_of_count_ne x r order hp hcount]
  unfold Mutator.namedWorkerAndPlugin
  cases order
  · exact ⟨rfl, Or.inr rfl⟩
  · exact ⟨rfl, Or.inl rfl⟩

theorem Mutate_container_fallback_witness :
    (((sampleMutator "popeye" []).Mutate sampleExternals false
        ).1.Spec.JobTemplate.Spec.Template.Spec.Containers).length = 2 ∧
      (sampleMutator "popeye" []).namedWorkerAndPlugin
        ((sampleMutator "popeye" []).Mutate sampleExternals false
          ).1.Spec.JobTemplate.Spec.Template.Spec.Containers :=
  Mutate_container_fallback sampleExternals (sampleMutator "popeye" []) false rfl (by decide)

/-- C6 as stated fails for a plugin that is itself named "worker": the existing object has
no containers, and after Mutate it has one container, not two. -/
theorem Mutate_container_fallback_counterexample :
    (sampleMutator "worker" []).Existing.Spec.JobTemplate.Spec.Template.Spec.Containers = [] ∧
    (((sampleMutator "worker" []).Mutate sampleExternals true
        ).1.Spec.JobTemplate.Spec.Template.Spec.Containers).length = 1 ∧
    ¬ ((((sampleMutator "worker" []).Mutate sampleExternals true
          ).1.Spec.JobTemplate.Spec.Template.Spec.Containers).length = 2 ∧
        (sampleMutator "worker" []).namedWorkerAndPlugin
          ((sampleMutator "worker" []).Mutate sampleExternals true
            ).1.Spec.JobTemplate.Spec.Template.Spec.Containers) := by
  decide

/-- C7, amended. For a plugin not named "worker": when the number of existing containers
named "worker" or with the plugin's name is not two — as it is whenever the existing
container names are pairwise distinct and one of the two names is missing — Mutate discards
the existing container list and the result is exactly the two desired containers, so it holds
one container named "worker" and one named with the plugin's name. -/
theorem Mutate_replaces_containers (x : Externals) (r : Mutator) (order : Bool)
    (hp : r.Plugin.ObjectMeta.Name ≠ workerContainerName)
    (h : r.Existing.Spec.JobTemplate.Spec.Template.Spec.Containers.countP
          (fun c => r.isDesiredKey c.Name) ≠ 2 ∨
        ((r.Existing.Spec.JobTemplate.Spec.Template.Spec.Containers.map
            (fun c => c.Name)).Nodup ∧
          (workerContainerName ∉ r.Existing.Spec.JobTemplate.Spec.Template.Spec.Containers.map
              (fun c => c.Name) ∨
            r.Plugin.ObjectMeta.Name ∉
              r.Existing.Spec.JobTemplate.Spec.Template.Spec.Containers.map
                (fun c => c.Name)))) :
    r.isDesiredPair x (r.Mutate x order).1.Spec.JobTemplate.Spec.Template.Spec.Containers ∧
      r.namedWorkerAndPlugin
        (r.Mutate x order).1.Spec.JobTemplate.Spec.Template.Spec.Containers := by
  have hcount : r.Existing.Spec.JobTemplate.Spec.Template.Spec.Containers.countP
      (fun c => r.isDesiredKey c.Name) ≠ 2 := by
    rcases h with h | ⟨hnd, hmiss⟩
    · exact h
    · have hle := countP_two_names_le _ workerContainerName r.Plugin.ObjectMeta.Name
        (fun e => hp e.symm) hnd hmiss
      rw [List.countP_map] at hle
      have heq : r.Existing.Spec.JobTemplate.Spec.Template.Spec.Containers.countP
          (fun c => r.isDesiredKey c.Name) =
          r.Existing.Spec.JobTemplate.Spec.Template.Spec.Containers.countP
            ((fun n => decide (n = workerContainerName) ||
              decide (n = r.Plugin.ObjectMeta.Name)) ∘ fun c => c.Name) := rfl
      omega
  rw [Mutate_Containers, containers_of_count_ne x r order hp hcount]
  unfold Mutator.isDesiredPair Mutator.namedWorkerAndPlugin
  cases order
  · exact ⟨Or.inr rfl, Or.inr rfl⟩
  · exact ⟨Or.inl rfl, Or.inl rfl⟩

theorem Mutate_replaces_containers_witness :
    (sampleMutator "popeye" [{ Name := "worker" }, { Name := "sidecar" }]).isDesiredPair
        sampleExternals
        ((sampleMutator "popeye" [{ Name := "worker" }, { Name := "sidecar" }]).Mutate
          sampleExternals true).1.Spec.JobTemplate.Spec.Template.Spec.Containers ∧
      (sampleMutator "popeye" [{ Name := "worker" }, { Name := "sidecar" }]).namedWorkerAndPlugin
        ((sampleMutator "popeye" [{ Name := "worker" }, { Name := "sidecar" }]).Mutate
          sampleExternals true).1.Spec.JobTemplate.Spec.Template.Spec.Containers :=
  Mutate_replaces_containers sampleExternals
    (sampleMutator "popeye" [{ Name := "worker" }, { Name := "sidecar" }]) true
    (by decide) (Or.inr (by decide))

/-- C7 as stated fails when a name is duplicated: the existing list holds two containers
named "worker" and none named with the plugin's name "popeye", yet Mutate keeps the list
(both are counted) and the result has no container for the plugin. -/
theorem Mutate_replaces_containers_counterexample :
    (sampleMutator "popeye" duplicateWorkers).Plugin.ObjectMeta.Name ≠ workerContainerName ∧
    (sampleMutator "popeye" duplicateWorkers).Plugin.ObjectMeta.Name ∉
      (sampleMutator "popeye" duplicateWorkers
        ).Existing.Spec.JobTemplate.Spec.Template.Spec.Containers.map (fun c => c.Name) ∧
    ((sampleMutator "popeye" duplicateWorkers).Mutate sampleExternals true
        ).1.Spec.JobTemplate.Spec.Template.Spec.Containers.map (fun c => c.Name) =
      ["worker", "worker"] ∧
    ¬ (sampleMutator "popeye" duplicateWorkers).isDesiredPair sampleExternals
        ((sampleMutator "popeye" duplicateWorkers).Mutate sampleExternals true
          ).1.Spec.JobTemplate.Spec.Template.Spec.Containers ∧
    ¬ (sampleMutator "popeye" duplicateWorkers).namedWorkerAndPlugin
        ((sampleMutator "popeye" duplicateWorkers).Mutate sampleExternals true
          ).1.Spec.JobTemplate.Spec.Template.Spec.Containers := by
  decide

theorem goMapGet_desired_plugin (x : Externals) (r : Mutator) :
    goMapGet (r.desiredContainers x) r.Plugin.ObjectMeta.Name = some (r.pluginContainer x) := by
  unfold Mutator.desiredContainers
  rw [goMapGet_goMapSet, if_pos rfl]

theorem goMapGet_desired_worker (x : Externals) (r : Mutator)
    (hp : r.Plugin.ObjectMeta.Name ≠ workerContainerName) :
    goMapGet (r.desiredContainers x) workerContainerName = some r.workerContainer := by
  unfold Mutator.desiredContainers
  rw [goMapGet_goMapSet, if_neg (fun e => hp e.symm), goMapGet_goMapSet, if_pos rfl]

theorem map_eq_self_of_mem {α : Type} (f : α → α) (l : List α) (h : l.map f = l) :
    ∀ c ∈ l, f c = c := by
  induction l with
  | nil => simp
  | cons a rest ih =>
    simp only [List.map_cons, List.cons.injEq] at h
    intro c hc
    rcases List.mem_cons.mp hc with hc | hc
    · rw [hc]; exact h.1
    · exact ih h.2 c hc

/-- Every container of the result is left as it is by the loop body. -/
theorem mergeOne_of_mem_containers (x : Externals) (r : Mutator) (order : Bool)
    (c : corev1.Container) (hc : c ∈ r.containers x order) :
    mergeOne (r.desiredContainers x) c = c :=
  map_eq_self_of_mem _ _ (containers_fixed x r order).2 c hc

/-- C13, amended. After Mutate, on the in-place path as on the replacement path, every
container named with the plugin's name has the plugin's image, command, args, env-from,
resources, security context and pull policy, the results mount followed by the read-only
kubeconfig mount at /etc/zora as volume mounts, and the plugin environment; and when the
plugin is not itself named "worker", every container named "worker" has the worker image,
the plugin's resources, exactly the results mount, the pull policy IfNotPresent, the worker
environment, and empty command, args, env-from and security context. -/
theorem Mutate_owned_container_fields (x : Externals) (r : Mutator) (order : Bool)
    (c : corev1.Container)
    (hc : c ∈ (r.Mutate x order).1.Spec.JobTemplate.Spec.Template.Spec.Containers) :
    (c.Name = r.Plugin.ObjectMeta.Name → r.hasPluginFields x c) ∧
      (r.Plugin.ObjectMeta.Name ≠ workerContainerName → c.Name = workerContainerName →
        r.hasWorkerFields c) := by
  rw [Mutate_Containers] at hc
  have hfix := mergeOne_of_mem_containers x r order c hc
  unfold mergeOne at hfix
  constructor
  · intro hn
    rw [hn, goMapGet_desired_plugin] at hfix
    rw [← hfix]
    exact ⟨rfl, rfl, rfl, rfl, rfl, rfl, rfl, rfl, rfl⟩
  · intro hp hn
    rw [hn, goMapGet_desired_worker x r hp] at hfix
    rw [← hfix]
    exact ⟨rfl, rfl, rfl, rfl, rfl, rfl, rfl, rfl, rfl⟩

theorem Mutate_owned_container_fields_witness :
    (sampleMergedWorker.Name = (sampleMutator "popeye" sampleContainers).Plugin.ObjectMeta.Name →
      (sampleMutator "popeye" sampleContainers).hasPluginFields sampleExternals
        sampleMergedWorker) ∧
    ((sampleMutator "popeye" sampleContainers).Plugin.ObjectMeta.Name ≠ workerContainerName →
      sampleMergedWorker.Name = workerContainerName →
      (sampleMutator "popeye" sampleContainers).hasWorkerFields sampleMergedWorker) :=
  Mutate_owned_container_fields sampleExternals (sampleMutator "popeye" sampleContainers) true
    sampleMergedWorker (by decide)

/-- C13 as stated fails for a plugin that is itself named "worker": the one stored container
named "worker" is matched (the in-place path), and after Mutate it carries the plugin's
image and command, not the worker image and an empty command. -/
theorem Mutate_owned_container_fields_counterexample :
    (sampleMutator "worker" staleWorker).Existing.Spec.JobTemplate.Spec.Template.Spec.Containers.countP
        (fun c => (sampleMutator "worker" staleWorker).isDesiredKey c.Name) =
      goMapLen ((sampleMutator "worker" staleWorker).desiredContainers sampleExternals) ∧
    ∃ c ∈ ((sampleMutator "worker" staleWorker).Mutate sampleExternals true
        ).1.Spec.JobTemplate.Spec.Template.Spec.Containers,
      c.Name = "worker" ∧ c.Image = "registry/plugin:v1" ∧
        c.Image ≠ (sampleMutator "worker" staleWorker).WorkerImage ∧
        c.Command = ["/entrypoint.sh"] ∧
        ¬ (sampleMutator "worker" staleWorker).hasWorkerFields c := by
  decide

/-- C14. The plugin environment is the plugin's own variables, then the override's, then
DONE_DIR, then KUBECONFIG, CRONJOB_NAMESPACE and CRONJOB_NAME: a plain concatenation of
length |P| + |O| + 4 whose first |P| + |O| entries are the declared ones, kept as they are
whatever their names. -/
theorem pluginEnv_concatenation (r : Mutator) :
    r.pluginEnv =
        r.Plugin.Spec.Env ++ r.PluginRef.Env ++
          [{ Name := "DONE_DIR", Value := "/tmp/zora/results" }] ++
          [ { Name := "KUBECONFIG", Value := "/etc/zora/kubeconfig.yml" },
            { Name := "CRONJOB_NAMESPACE", Value := r.Existing.ObjectMeta.Namespace },
            { Name := "CRONJOB_NAME", Value := r.Existing.ObjectMeta.Name } ] ∧
      r.pluginEnv.length = r.Plugin.Spec.Env.length + r.PluginRef.Env.length + 4 ∧
      r.pluginEnv.take (r.Plugin.Spec.Env.length + r.PluginRef.Env.length) =
        r.Plugin.Spec.Env ++ r.PluginRef.Env := by
  have h : r.pluginEnv =
      r.Plugin.Spec.Env ++ r.PluginRef.Env ++
        [{ Name := "DONE_DIR", Value := "/tmp/zora/results" }] ++
        [ { Name := "KUBECONFIG", Value := "/etc/zora/kubeconfig.yml" },
          { Name := "CRONJOB_NAMESPACE", Value := r.Existing.ObjectMeta.Namespace },
          { Name := "CRONJOB_NAME", Value := r.Existing.ObjectMeta.Name } ] := by
    have hk : kubeconfigMountPath ++ "/" ++ kubeconfigFile = "/etc/zora/kubeconfig.yml" := by
      decide
    unfold Mutator.pluginEnv
    rw [hk]
    rfl
  refine ⟨h, ?_, ?_⟩
  · rw [h]; simp; omega
  · rw [h, List.append_assoc, ← List.length_append, List.take_left]

/-- C15. The worker environment is exactly seven variables with pairwise distinct names, in
the order DONE_DIR, CLUSTER_NAME, CLUSTER_ISSUES_NAMESPACE, PLUGIN_NAME, JOB_NAME, JOB_UID,
POD_NAME, the last three taken from pod field references; it does not depend on the existing
job object. -/
theorem workerEnv_shape (r : Mutator) :
    r.workerEnv =
        [ { Name := "DONE_DIR", Value := "/tmp/zora/results" },
          { Name := "CLUSTER_NAME", Value := r.ClusterScan.Spec.ClusterRef.Name },
          { Name := "CLUSTER_ISSUES_NAMESPACE", Value := r.ClusterScan.ObjectMeta.Namespace },
          { Name := "PLUGIN_NAME", Value := r.Plugin.ObjectMeta.Name },
          { Name := "JOB_NAME",
            ValueFrom := some
              { FieldRef := some
                  { FieldPath := "metadata.labels['job-name']", APIVersion := "v1" } } },
          { Name := "JOB_UID",
            ValueFrom := some
              { FieldRef := some
                  { FieldPath := "metadata.labels['controller-uid']", APIVersion := "v1" } } },
          { Name := "POD_NAME",
            ValueFrom := some
              { FieldRef := some { FieldPath := "metadata.name", APIVersion := "v1" } } } ] ∧
      r.workerEnv.length = 7 ∧
      (r.workerEnv.map (fun v => v.Name)).Nodup ∧
      ∀ existing : batchv1.CronJob,
        Mutator.workerEnv { r with Existing := existing } = r.workerEnv :=
  ⟨rfl, rfl,
    show ["DONE_DIR", "CLUSTER_NAME", "CLUSTER_ISSUES_NAMESPACE", "PLUGIN_NAME", "JOB_NAME",
      "JOB_UID", "POD_NAME"].Nodup by decide,
    fun _ => rfl⟩

/-- C16. After Mutate the pod volume list is exactly two entries, whatever volumes the
existing object carried: the volume "kubeconfig" backed by the kubeconfig secret, default
mode 0644, with the single item mapping the secret field to the path "kubeconfig.yml", and
the volume "results" backed by an empty dir. -/
theorem Mutate_volumes (x : Externals) (r : Mutator) (order : Bool) :
    (r.Mutate x order).1.Spec.JobTemplate.Spec.Template.Spec.Volumes =
      [ { Name := "kubeconfig"
          VolumeSource :=
            { Secret := some
                { SecretName := r.KubeconfigSecret.ObjectMeta.Name
                  DefaultMode := some 0o644
                  Items := [{ Key := x.SecretField, Path := "kubeconfig.yml" }] } } },
        { Name := "results"
          VolumeSource := { EmptyDir := some {} } } ] := by
  obtain ⟨refs, h⟩ := Mutate_fst x r order
  rw [h, mutateFields_eq]
  rfl

/-- C17. Mutate returns an error exactly when setting the cluster scan as controller owner
of the job returns one, and then it returns that error; it returns nil exactly when the owner
step succeeds. Every other step is a total function. -/
theorem Mutate_error_iff (x : Externals) (r : Mutator) (order : Bool) :
    (∀ err, (r.Mutate x order).2 = some err ↔
        x.SetControllerReference r.ClusterScan (r.mutateFields x order) r.Scheme =
          .error err) ∧
      ((r.Mutate x order).2 = none ↔
        ∃ refs, x.SetControllerReference r.ClusterScan (r.mutateFields x order) r.Scheme =
          .ok refs) := by
  rw [Mutate_eq]
  cases x.SetControllerReference r.ClusterScan (r.mutateFields x order) r.Scheme with
  | error e => simp
  | ok refs => simp

/-- C18. After Mutate, whatever the existing object carried: the concurrency policy is
Forbid, the two job history limits are the cluster scan's two scan history limits, the pod
restart policy is Never, the job backoff limit is 0, and the pod security context is exactly
run-as-non-root = true. -/
theorem Mutate_policy_fields (x : Externals) (r : Mutator) (order : Bool) :
    (r.Mutate x order).1.Spec.ConcurrencyPolicy = "Forbid" ∧
      (r.Mutate x order).1.Spec.SuccessfulJobsHistoryLimit =
        r.ClusterScan.Spec.SuccessfulScansHistoryLimit ∧
      (r.Mutate x order).1.Spec.FailedJobsHistoryLimit =
        r.ClusterScan.Spec.FailedScansHistoryLimit ∧
      (r.Mutate x order).1.Spec.JobTemplate.Spec.Template.Spec.RestartPolicy = "Never" ∧
      (r.Mutate x order).1.Spec.JobTemplate.Spec.BackoffLimit = some 0 ∧
      (r.Mutate x order).1.Spec.JobTemplate.Spec.Template.Spec.SecurityContext =
        some { RunAsUser := none, RunAsNonRoot := some true, FSGroup := none } := by
  obtain ⟨refs, h⟩ := Mutate_fst x r order
  rw [h, mutateFields_eq]
  exact ⟨rfl, rfl, rfl, rfl, rfl, rfl⟩

/-- C20. In the object produced by Mutate the number of containers whose name is a desired
key equals the number of desired keys, so a second Mutate with the same configuration takes
the in-place path: whatever the iteration order of its map, it returns the container list of
the first run. -/
theorem Mutate_fallback_at_most_once (x : Externals) (r : Mutator) (o₁ : Bool) :
    ((r.Mutate x o₁).1.Spec.JobTemplate.Spec.Template.Spec.Containers).countP
          (fun c => r.isDesiredKey c.Name) = goMapLen (r.desiredContainers x) ∧
      ∀ o₂ : Bool,
        (Mutator.Mutate x { r with Existing := (r.Mutate x o₁).1 } o₂
            ).1.Spec.JobTemplate.Spec.Template.Spec.Containers =
          (r.Mutate x o₁).1.Spec.JobTemplate.Spec.Template.Spec.Containers := by
  obtain ⟨refs, h⟩ := Mutate_fst x r o₁
  constructor
  · rw [Mutate_Containers]
    exact (containers_fixed x r o₁).1
  · intro o₂
    have hr : ({ r with Existing := (r.Mutate x o₁).1 } : Mutator) = r.rerun x o₁ refs := by
      rw [h]; rfl
    rw [hr, Mutate_Containers, rerun_containers, Mutate_Containers]

end cronjobs

namespace payloads
open v1alpha1

/-! ## The aggregation of cluster issues -/

theorem addCluster_meta (issue : Issue) (ci : ClusterIssue) :
    (issue.addCluster ci).ID = issue.ID ∧ (issue.addCluster ci).ApiVersion = issue.ApiVersion ∧
      (issue.addCluster ci).Message = issue.Message ∧
      (issue.addCluster ci).Severity = issue.Severity ∧
      (issue.addCluster ci).Category = issue.Category := by
  unfold Issue.addCluster
  split <;> simp

theorem addCluster_Clusters (issue : Issue) (ci : ClusterIssue) :
    (issue.addCluster ci).Clusters =
      if NewClusterReference ci ∈ issue.Clusters then issue.Clusters
      else issue.Clusters ++ [NewClusterReference ci] := by
  unfold Issue.addCluster
  split <;> rfl

/-- The entry stored under the identifier of a finding once the finding is folded in. -/
theorem goMapGet_aggregateStep (m : GoMap Issue) (ci : ClusterIssue) (k : String) :
    goMapGet (aggregateStep m ci) k =
      if k = ci.Spec.ID then
        some (match goMapGet m ci.Spec.ID with
          | none => NewIssue ci
          | some issue => issue.addCluster ci)
      else goMapGet m k := by
  unfold aggregateStep
  cases goMapGet m ci.Spec.ID <;> simp only [goMapGet_goMapSet]

theorem aggregateStep_keys (m : GoMap Issue) (ci : ClusterIssue) :
    (aggregateStep m ci).map Prod.fst =
      if ci.Spec.ID ∈ m.map Prod.fst then m.map Prod.fst else m.map Prod.fst ++ [ci.Spec.ID] := by
  unfold aggregateStep
  cases goMapGet m ci.Spec.ID <;> simp only [goMapSet_keys]

theorem issuesByID_append (seen : List ClusterIssue) (ci : ClusterIssue) :
    issuesByID (seen ++ [ci]) = aggregateStep (issuesByID seen) ci := by
  simp [issuesByID, List.foldl_append]

theorem findingsWithID_append (seen : List ClusterIssue) (ci : ClusterIssue) (x : String) :
    findingsWithID (seen ++ [ci]) x =
      if ci.Spec.ID = x then findingsWithID seen x ++ [ci] else findingsWithID seen x := by
  unfold findingsWithID
  rw [List.filter_append]
  by_cases h : ci.Spec.ID = x <;> simp [List.filter_cons, h]

end payloads

namespace payloads
open v1alpha1

/-- Where an entry of the mapping comes from, after one more finding. -/
theorem aggregateStep_entry (m : GoMap Issue) (ci : ClusterIssue) (k : String) (v : Issue)
    (hv : goMapGet (aggregateStep m ci) k = some v) :
    (k ≠ ci.Spec.ID ∧ goMapGet m k = some v) ∨
      (k = ci.Spec.ID ∧ goMapGet m k = none ∧ v = NewIssue ci) ∨
      (k = ci.Spec.ID ∧ ∃ issue, goMapGet m k = some issue ∧ v = issue.addCluster ci) := by
  rw [goMapGet_aggregateStep] at hv
  by_cases hk : k = ci.Spec.ID
  · rw [if_pos hk] at hv
    subst hk
    cases hg : goMapGet m ci.Spec.ID with
    | none =>
      rw [hg] at hv
      exact Or.inr (Or.inl ⟨rfl, rfl, (Option.some.inj hv).symm⟩)
    | some issue =>
      rw [hg] at hv
      exact Or.inr (Or.inr ⟨rfl, issue, rfl, (Option.some.inj hv).symm⟩)
  · rw [if_neg hk] at hv
    exact Or.inl ⟨hk, hv⟩

theorem find?_append_singleton_of_some (seen : List ClusterIssue) (ci f : ClusterIssue)
    (k : String) (h : seen.find? (fun f => decide (f.Spec.ID = k)) = some f) :
    (seen ++ [ci]).find? (fun f => decide (f.Spec.ID = k)) = some f := by
  rw [List.find?_append, h]
  rfl

theorem find?_append_singleton_of_none (seen : List ClusterIssue) (ci : ClusterIssue)
    (h : ∀ f ∈ seen, f.Spec.ID ≠ ci.Spec.ID) :
    (seen ++ [ci]).find? (fun f => decide (f.Spec.ID = ci.Spec.ID)) = some ci := by
  have hn : seen.find? (fun f => decide (f.Spec.ID = ci.Spec.ID)) = none := by
    rw [List.find?_eq_none]
    intro f hf
    simpa using h f hf
  rw [List.find?_append, hn]
  simp

/-- Folding one more finding into the mapping keeps the invariant. -/
theorem Aggregated.step {seen : List ClusterIssue} {m : GoMap Issue} (h : Aggregated seen m)
    (ci : ClusterIssue) : Aggregated (seen ++ [ci]) (aggregateStep m ci) := by
  have hnone : goMapGet m ci.Spec.ID = none → ∀ f ∈ seen, f.Spec.ID ≠ ci.Spec.ID := by
    intro hn f hf he
    exact (goMapGet_eq_none_iff m _).mp hn
      ((h.keys_iff _).mpr (List.mem_map.mpr ⟨f, hf, he⟩))
  refine ⟨?_, ?_, ?_, ?_, ?_, ?_, ?_⟩
  · rw [aggregateStep_keys]
    split
    · exact h.keys_nodup
    · next hk =>
      exact List.Nodup.append h.keys_nodup (List.nodup_singleton _) (by simpa using hk)
  · intro k
    rw [aggregateStep_keys]
    split
    · next hk =>
      simp only [List.map_append, List.mem_append, List.map_cons, List.map_nil,
        List.mem_singleton]
      constructor
      · intro hm; exact Or.inl ((h.keys_iff k).mp hm)
      · rintro (hm | hm)
        · exact (h.keys_iff k).mpr hm
        · rw [hm]; exact hk
    · simp only [List.map_append, List.mem_append, List.map_cons, List.map_nil,
        List.mem_singleton, h.keys_iff]
  · intro k v hv
    rcases aggregateStep_entry m ci k v hv with ⟨_, hg⟩ | ⟨hk, _, rfl⟩ | ⟨hk, issue, hg, rfl⟩
    · exact h.id_eq k v hg
    · exact hk.symm
    · rw [(addCluster_meta issue ci).1]; exact h.id_eq k issue hg
  · intro k v hv
    rcases aggregateStep_entry m ci k v hv with ⟨_, hg⟩ | ⟨hk, hg, rfl⟩ | ⟨hk, issue, hg, rfl⟩
    · obtain ⟨f, hf, hrest⟩ := h.first k v hg
      exact ⟨f, find?_append_singleton_of_some seen ci f k hf, hrest⟩
    · subst hk
      exact ⟨ci, find?_append_singleton_of_none seen ci (hnone hg), rfl, rfl, rfl, rfl⟩
    · obtain ⟨f, hf, hrest⟩ := h.first k issue hg
      obtain ⟨_, h2, h3, h4, h5⟩ := addCluster_meta issue ci
      refine ⟨f, find?_append_singleton_of_some seen ci f k hf, ?_⟩
      rw [h2, h3, h4, h5]
      exact hrest
  · intro k v hv
    rcases aggregateStep_entry m ci k v hv with ⟨_, hg⟩ | ⟨hk, hg, rfl⟩ | ⟨hk, issue, hg, rfl⟩
    · exact h.clusters_nodup k v hg
    · simp [NewIssue]
    · rw [addCluster_Clusters]
      split
      · exact h.clusters_nodup k issue hg
      · next hc =>
        exact List.Nodup.append (h.clusters_nodup k issue hg) (List.nodup_singleton _)
          (by simpa using hc)
  · intro k v hv c hc
    rcases aggregateStep_entry m ci k v hv with ⟨_, hg⟩ | ⟨hk, hg, rfl⟩ | ⟨hk, issue, hg, rfl⟩
    · obtain ⟨f, hf, hrest⟩ := h.clusters_sound k v hg c hc
      exact ⟨f, List.mem_append_left _ hf, hrest⟩
    · simp only [NewIssue, List.mem_singleton] at hc
      exact ⟨ci, by simp, hk.symm, hc⟩
    · rw [addCluster_Clusters] at hc
      have hold : c ∈ issue.Clusters → ∃ f ∈ seen ++ [ci], f.Spec.ID = k ∧
          c = NewClusterReference f := by
        intro hc'
        obtain ⟨f, hf, hrest⟩ := h.clusters_sound k issue hg c hc'
        exact ⟨f, List.mem_append_left _ hf, hrest⟩
      split at hc
      · exact hold hc
      · rcases List.mem_append.mp hc with hc' | hc'
        · exact hold hc'
        · exact ⟨ci, by simp, hk.symm, List.mem_singleton.mp hc'⟩
  · intro k v hv f hf hfk
    rcases aggregateStep_entry m ci k v hv with ⟨hk, hg⟩ | ⟨hk, hg, rfl⟩ | ⟨hk, issue, hg, rfl⟩
    · rcases List.mem_append.mp hf with hf' | hf'
      · exact h.clusters_complete k v hg f hf' hfk
      · rw [List.mem_singleton.mp hf'] at hfk
        exact absurd hfk.symm hk
    · subst hk
      rcases List.mem_append.mp hf with hf' | hf'
      · exact absurd hfk (hnone hg f hf')
      · rw [List.mem_singleton.mp hf']
        simp [NewIssue]
    · rw [addCluster_Clusters]
      rcases List.mem_append.mp hf with hf' | hf'
      · have := h.clusters_complete k issue hg f hf' hfk
        split
        · exact this
        · exact List.mem_append_left _ this
      · rw [List.mem_singleton.mp hf']
        split
        · next hc => exact hc
        · simp

/-- The invariant holds of the mapping built from any input. -/
theorem aggregated_issuesByID (clusterIssues : List ClusterIssue) :
    Aggregated clusterIssues (issuesByID clusterIssues) := by
  induction clusterIssues using List.reverseRecOn with
  | nil =>
    refine ⟨by simp [issuesByID], by simp [issuesByID], ?_, ?_, ?_, ?_, ?_⟩ <;>
      · intro k v hv
        simp [issuesByID, goMapGet] at hv
  | append_singleton seen ci ih =>
    rw [issuesByID_append]
    exact ih.step ci

end payloads

namespace payloads
open v1alpha1

theorem mem_NewIssues (clusterIssues : List ClusterIssue) (e : Issue) :
    e ∈ NewIssues clusterIssues ↔ goMapGet (issuesByID clusterIssues) e.ID = some e := by
  have h := aggregated_issuesByID clusterIssues
  constructor
  · intro he
    obtain ⟨p, hp, hpe⟩ := List.mem_map.mp he
    obtain ⟨k, v⟩ := p
    have hve : v = e := hpe
    subst hve
    have hg := goMapGet_of_mem _ k v h.keys_nodup hp
    rw [h.id_eq k v hg]
    exact hg
  · intro hg
    exact List.mem_map.mpr ⟨(e.ID, e), mem_of_goMapGet _ _ _ hg, rfl⟩

theorem NewIssues_IDs (clusterIssues : List ClusterIssue) :
    (NewIssues clusterIssues).map (fun e => e.ID) =
      (issuesByID clusterIssues).map Prod.fst := by
  have h := aggregated_issuesByID clusterIssues
  unfold NewIssues
  rw [List.map_map]
  apply List.map_congr_left
  intro p hp
  obtain ⟨k, v⟩ := p
  exact h.id_eq k v (goMapGet_of_mem _ k v h.keys_nodup hp)

/-- The entry of an identifier is computed from the findings with that identifier alone. -/
theorem issuesByID_findingsWithID (clusterIssues : List ClusterIssue) (x : String) :
    goMapGet (issuesByID clusterIssues) x =
      goMapGet (issuesByID (findingsWithID clusterIssues x)) x := by
  induction clusterIssues using List.reverseRecOn with
  | nil => rfl
  | append_singleton seen ci ih =>
    rw [issuesByID_append, goMapGet_aggregateStep, findingsWithID_append]
    by_cases hx : x = ci.Spec.ID
    · subst hx
      rw [if_pos rfl, if_pos rfl, issuesByID_append, goMapGet_aggregateStep, if_pos rfl, ← ih]
    · have hx' : ¬ ci.Spec.ID = x := fun e => hx e.symm
      rw [if_neg hx, if_neg hx', ih]

theorem totalClusters_goMapSet_le (m : GoMap Issue) (k : String) (v : Issue)
    (hold : ∀ old, goMapGet m k = some old → v.Clusters.length ≤ old.Clusters.length + 1)
    (hnew : goMapGet m k = none → v.Clusters.length ≤ 1) :
    totalClusters (goMapSet m k v) ≤ totalClusters m + 1 := by
  induction m with
  | nil =>
    have := hnew rfl
    simp [goMapSet, totalClusters]
    omega
  | cons p rest ih =>
    obtain ⟨k0, v0⟩ := p
    by_cases h0 : k0 = k
    · subst h0
      have := hold v0 (by simp [goMapGet])
      simp [goMapSet, totalClusters]
      omega
    · have ih' := ih (fun old ho => hold old (by simpa [goMapGet, h0] using ho))
        (fun hn => hnew (by simpa [goMapGet, h0] using hn))
      simp only [totalClusters] at ih' ⊢
      simp only [goMapSet, if_neg h0, List.map_cons, List.sum_cons]
      omega

theorem totalClusters_le (clusterIssues : List ClusterIssue) :
    totalClusters (issuesByID clusterIssues) ≤ clusterIssues.length := by
  induction clusterIssues using List.reverseRecOn with
  | nil => simp [issuesByID, totalClusters]
  | append_singleton seen ci ih =>
    rw [issuesByID_append, List.length_append, List.length_singleton]
    have hstep : totalClusters (aggregateStep (issuesByID seen) ci) ≤
        totalClusters (issuesByID seen) + 1 := by
      unfold aggregateStep
      cases hg : goMapGet (issuesByID seen) ci.Spec.ID with
      | none =>
        exact totalClusters_goMapSet_le _ _ _ (fun old ho => by rw [hg] at ho; cases ho)
          (fun _ => by simp [NewIssue])
      | some issue =>
        refine totalClusters_goMapSet_le _ _ _ (fun old ho => ?_)
          (fun hn => by rw [hg] at hn; cases hn)
        rw [hg] at ho
        cases ho
        rw [addCluster_Clusters]
        split <;> simp
    omega

end payloads

namespace payloads
open v1alpha1

/-- C8. NewIssues returns one entry per distinct finding identifier: the identifiers of the
entries are pairwise distinct, an identifier is the identifier of an entry exactly when it is
the identifier of an input finding, and the six findings of the test, over POP-106 and
POP-777, give exactly two entries. -/
theorem NewIssues_groups_by_ID (clusterIssues : List ClusterIssue) :
    ((NewIssues clusterIssues).map (fun e => e.ID)).Nodup ∧
      (∀ x, x ∈ (NewIssues clusterIssues).map (fun e => e.ID) ↔
        x ∈ clusterIssues.map (fun f => f.Spec.ID)) ∧
      testIssues.length = 6 ∧
      (NewIssues testIssues).map (fun e => e.ID) = ["POP-106", "POP-777"] := by
  have h := aggregated_issuesByID clusterIssues
  rw [NewIssues_IDs]
  exact ⟨h.keys_nodup, h.keys_iff, by decide, by decide⟩

/-- C9, amended. Every entry lists one ClusterReference per distinct reference (cluster,
namespace, resource count) reported for its identifier: no reference occurs twice in the
entry, and a reference occurs in it exactly when it is the reference of some input finding
with the entry's identifier. On the test input, where prd1 reports POP-106 in two records
with the same namespace and resource count, prd1 appears once: the output sorted as the test
sorts it is the expected one, POP-106 with dev1/71, hml1/17, prd1/10 and POP-777 with
dev2/27, prd2/7. -/
theorem NewIssues_one_reference_per_cluster (clusterIssues : List ClusterIssue) (e : Issue)
    (he : e ∈ NewIssues clusterIssues) :
    e.Clusters.Nodup ∧
      (∀ c, c ∈ e.Clusters ↔
        ∃ f ∈ clusterIssues, f.Spec.ID = e.ID ∧ NewClusterReference f = c) ∧
      sortIssues (NewIssues testIssues) = testWant := by
  have h := aggregated_issuesByID clusterIssues
  have hg := (mem_NewIssues clusterIssues e).mp he
  refine ⟨h.clusters_nodup _ _ hg, ?_, by decide⟩
  intro c
  constructor
  · intro hc
    obtain ⟨f, hf, hid, hcf⟩ := h.clusters_sound _ _ hg c hc
    exact ⟨f, hf, hid, hcf.symm⟩
  · rintro ⟨f, hf, hid, hfc⟩
    rw [← hfc]
    exact h.clusters_complete _ _ hg f hf hid

theorem NewIssues_one_reference_per_cluster_witness :
    testGotPOP106.Clusters.Nodup ∧
      (∀ c, c ∈ testGotPOP106.Clusters ↔
        ∃ f ∈ testIssues, f.Spec.ID = testGotPOP106.ID ∧ NewClusterReference f = c) ∧
      sortIssues (NewIssues testIssues) = testWant :=
  NewIssues_one_reference_per_cluster testIssues testGotPOP106 (by decide)

/-- C9 as stated fails where the spec says findings are not merged: two findings of POP-106
from the cluster prd1 in the namespace prd, counting 10 and 12 resources, each contribute
their own ClusterReference, and the entry holds the cluster name prd1 twice. -/
theorem NewIssues_one_reference_per_cluster_counterexample :
    (NewIssues repeatedIssues).map
        (fun e => (e.ID, e.Clusters.map (fun c => (c.Name, c.Namespace, c.TotalResources)))) =
      [("POP-106", [("prd1", "prd", 10), ("prd1", "prd", 12)])] ∧
    ¬ (∀ e ∈ NewIssues repeatedIssues, (e.Clusters.map (fun c => c.Name)).Nodup) := by
  decide

/-- C10, amended. The number of ClusterReferences in an entry is the number of distinct
references (cluster, namespace, resource count) among the input findings with the entry's
identifier, hence at most the number of those findings; and the number of ClusterReferences
over all entries is at most the length of the input. -/
theorem NewIssues_reference_count (clusterIssues : List ClusterIssue) (e : Issue)
    (he : e ∈ NewIssues clusterIssues) :
    e.Clusters.length =
        (((findingsWithID clusterIssues e.ID).map NewClusterReference).dedup).length ∧
      e.Clusters.length ≤ (findingsWithID clusterIssues e.ID).length ∧
      ((NewIssues clusterIssues).map (fun e => e.Clusters.length)).sum ≤
        clusterIssues.length := by
  have h := aggregated_issuesByID clusterIssues
  have hg := (mem_NewIssues clusterIssues e).mp he
  have hperm : e.Clusters.Perm
      (((findingsWithID clusterIssues e.ID).map NewClusterReference).dedup) := by
    rw [List.perm_ext_iff_of_nodup (h.clusters_nodup _ _ hg) (List.nodup_dedup _)]
    intro c
    rw [List.mem_dedup]
    constructor
    · intro hc
      obtain ⟨f, hf, hid, hcf⟩ := h.clusters_sound _ _ hg c hc
      refine List.mem_map.mpr ⟨f, ?_, hcf.symm⟩
      simp [findingsWithID, hf, hid]
    · intro hc
      obtain ⟨f, hf, hfc⟩ := List.mem_map.mp hc
      simp only [findingsWithID, List.mem_filter, decide_eq_true_eq] at hf
      rw [← hfc]
      exact h.clusters_complete _ _ hg f hf.1 hf.2
  refine ⟨hperm.length_eq, ?_, ?_⟩
  · rw [hperm.length_eq]
    have := (List.dedup_sublist
      ((findingsWithID clusterIssues e.ID).map NewClusterReference)).length_le
    rw [List.length_map] at this
    exact this
  · have := totalClusters_le clusterIssues
    unfold totalClusters at this
    unfold NewIssues
    rw [List.map_map]
    exact this

theorem NewIssues_reference_count_witness :
    testGotPOP106.Clusters.length =
        (((findingsWithID testIssues testGotPOP106.ID).map NewClusterReference).dedup
          ).length ∧
      testGotPOP106.Clusters.length ≤ (findingsWithID testIssues testGotPOP106.ID).length ∧
      ((NewIssues testIssues).map (fun e => e.Clusters.length)).sum ≤ testIssues.length :=
  NewIssues_reference_count testIssues testGotPOP106 (by decide)

/-- C10 as stated fails on the input of the test, by the test's own expected value: of the
six findings four have the identifier POP-106, two of them from prd1, and the expected
entry for POP-106 holds three ClusterReferences, the expected output five in all. -/
theorem NewIssues_reference_count_counterexample :
    testIssues.length = 6 ∧ (findingsWithID testIssues "POP-106").length = 4 ∧
      testWant.map (fun e => (e.ID, e.Clusters.length)) = [("POP-106", 3), ("POP-777", 2)] ∧
      sortIssues (NewIssues testIssues) = testWant ∧
      (NewIssues testIssues).map (fun e => (e.ID, e.Clusters.length)) =
        [("POP-106", 3), ("POP-777", 2)] ∧
      ¬ (∀ e ∈ NewIssues testIssues,
          e.Clusters.length = (findingsWithID testIssues e.ID).length) ∧
      ((NewIssues testIssues).map (fun e => e.Clusters.length)).sum ≠ testIssues.length := by
  decide

/-- C11. The message, severity and category of an entry are those of the first input
finding, in input order, that has the entry's identifier. -/
theorem NewIssues_first_seen_metadata (clusterIssues : List ClusterIssue) (e : Issue)
    (he : e ∈ NewIssues clusterIssues) :
    ∃ f, clusterIssues.find? (fun f => decide (f.Spec.ID = e.ID)) = some f ∧
      e.Message = f.Spec.Message ∧ e.Severity = f.Spec.Severity ∧
      e.Category = f.Spec.Category := by
  have h := aggregated_issuesByID clusterIssues
  have hg := (mem_NewIssues clusterIssues e).mp he
  obtain ⟨f, hf, _, h1, h2, h3⟩ := h.first _ _ hg
  exact ⟨f, hf, h1, h2, h3⟩

theorem NewIssues_first_seen_metadata_witness :
    ∃ f, testIssues.find? (fun f => decide (f.Spec.ID = testGotPOP777.ID)) = some f ∧
      testGotPOP777.Message = f.Spec.Message ∧ testGotPOP777.Severity = f.Spec.Severity ∧
      testGotPOP777.Category = f.Spec.Category :=
  NewIssues_first_seen_metadata testIssues testGotPOP777 (by decide)

/-- C12. Every ClusterReference of an entry carries the cluster, namespace and resource
count of some input finding with the entry's identifier; and the entry is the one NewIssues
returns on the findings with that identifier alone, so findings with another identifier
contribute nothing to it. -/
theorem NewIssues_no_cross_identifier_bleed (clusterIssues : List ClusterIssue) (e : Issue)
    (he : e ∈ NewIssues clusterIssues) :
    (∀ c ∈ e.Clusters, ∃ f ∈ clusterIssues, f.Spec.ID = e.ID ∧
        c.Name = f.Spec.Cluster ∧ c.Namespace = f.ObjectMeta.Namespace ∧
        c.TotalResources = f.Spec.TotalResources) ∧
      e ∈ NewIssues (findingsWithID clusterIssues e.ID) := by
  have h := aggregated_issuesByID clusterIssues
  have hg := (mem_NewIssues clusterIssues e).mp he
  constructor
  · intro c hc
    obtain ⟨f, hf, hid, hcf⟩ := h.clusters_sound _ _ hg c hc
    exact ⟨f, hf, hid, by rw [hcf]; exact ⟨rfl, rfl, rfl⟩⟩
  · rw [mem_NewIssues, ← issuesByID_findingsWithID]
    exact hg

theorem NewIssues_no_cross_identifier_bleed_witness :
    (∀ c ∈ testGotPOP777.Clusters, ∃ f ∈ testIssues, f.Spec.ID = testGotPOP777.ID ∧
        c.Name = f.Spec.Cluster ∧ c.Namespace = f.ObjectMeta.Namespace ∧
        c.TotalResources = f.Spec.TotalResources) ∧
      testGotPOP777 ∈ NewIssues (findingsWithID testIssues testGotPOP777.ID) :=
  NewIssues_no_cross_identifier_bleed testIssues testGotPOP777 (by decide)

/-- C19. NewIssues is a total function: on the empty input it returns the empty list, and
on a single finding it returns the single entry made from that finding. -/
theorem NewIssues_empty :
    NewIssues [] = [] ∧ ∀ f : ClusterIssue, NewIssues [f] = [NewIssue f] :=
  ⟨rfl, fun _ => rfl⟩

end payloads
